import Mathlib

/-!
# Verification of the CoolerControl daemon core against its specification

This file shallowly embeds the parts of the `coolercontrold` Rust daemon that
the specification's claims are about:

* the `Setting` data model (`setting.rs`, with the `profile_uid` field used by
  `modes.rs` and `config.rs`),
* the `ModeController` operations (`modes.rs`): `determine_active_modes`,
  `activate_mode`, `update_mode_order`, `profile_deleted`,
* the `AlertController` operations (`alerts.rs`): alert evaluation,
  `update`, `log_alert_state_change`,
* the configuration store (`config.rs`): `set_device_setting` /
  `get_device_settings` on the typed channel tables the daemon itself writes,
  and the TOML-level readers `get_settings`, `get_profiles`, and the
  validation sequence of `load_config_file`.

Rust `HashMap`s are embedded as association lists (`List (key × value)`);
where a proof needs the `HashMap` key-uniqueness guarantee it is an explicit
`Nodup` hypothesis.  Rust `f64` values are embedded as `ℚ`: the daemon never
does arithmetic on the relevant values, it only stores and orders them, and
`ℚ` is a faithful model of the ordered non-NaN doubles.  Fallible code
returns `Option`/`Except`; a Rust `unwrap` that can panic is modelled by
propagating `none`.
-/

set_option autoImplicit false

namespace CoolerControl

/-! ## Association-list helpers (model of `HashMap` / TOML tables) -/

/-- First value stored under a key. -/
def alookup {α : Type} (l : List (String × α)) (k : String) : Option α :=
  match l with
  | [] => none
  | (k', v) :: rest => if k' = k then some v else alookup rest k

/-- Remove the first entry stored under a key. -/
def aerase {α : Type} (l : List (String × α)) (k : String) : List (String × α) :=
  match l with
  | [] => []
  | (k', v) :: rest => if k' = k then rest else (k', v) :: aerase rest k

/-- Replace the value under a key in place, or append a new entry
(the behavior of `HashMap::insert` position-wise for `hashlink` and of
writing a key into a `toml_edit` table). -/
def astore {α : Type} (l : List (String × α)) (k : String) (v : α) :
    List (String × α) :=
  match l with
  | [] => [(k, v)]
  | (k', v') :: rest =>
    if k' = k then (k, v) :: rest else (k', v') :: astore rest k v

/-- The keys of an association list. -/
def akeys {α : Type} (l : List (String × α)) : List String := l.map (·.1)

/-- Whether a key is present. -/
def amem {α : Type} (l : List (String × α)) (k : String) : Bool :=
  (alookup l k).isSome

/-! ## The `Setting` data model (`setting.rs`)

The struct below is the variant used by `modes.rs` and `config.rs`:
the `Setting` struct of `setting.rs` plus the `profile_uid` field that
`config.rs::get_device_settings` constructs and `modes.rs` consumes. -/

/-- `TempSource` (`setting.rs`). -/
structure TempSource where
  temp_name : String
  device_uid : String
  deriving DecidableEq, Repr

/-- `LightingSettings` (`setting.rs`). -/
structure LightingSettings where
  mode : String
  speed : Option String
  backward : Option Bool
  colors : List (Nat × Nat × Nat)
  deriving DecidableEq, Repr

/-- `LcdSettings` (`setting.rs`). -/
structure LcdSettings where
  mode : String
  brightness : Option Nat
  orientation : Option Nat
  image_file_src : Option String
  image_file_processed : Option String
  colors : List (Nat × Nat × Nat)
  temp_source : Option TempSource
  deriving DecidableEq, Repr

/-- `Setting` (`setting.rs`), including the `profile_uid` field of the newer
variant that `modes.rs`/`config.rs` use.  `f64` temperatures are `ℚ`. -/
structure Setting where
  channel_name : String
  speed_fixed : Option Nat := none
  speed_profile : Option (List (ℚ × Nat)) := none
  temp_source : Option TempSource := none
  lighting : Option LightingSettings := none
  lcd : Option LcdSettings := none
  pwm_mode : Option Nat := none
  reset_to_default : Option Bool := none
  profile_uid : Option String := none
  deriving DecidableEq, Repr

/-- Modelled from the spec: the Default Profile has uid `"0"`
(`DEFAULT_PROFILE_UID` is declared in the newer `setting.rs`, which is not
under `src/`; `Profile::default()` in the included `setting.rs` and §3 of the
spec both fix the uid as `"0"`). -/
def DEFAULT_PROFILE_UID : String := "0"

/-! ## Modes (`modes.rs`) -/

/-- `Mode` (`modes.rs`): `all_device_settings` is a
`HashMap<DeviceUID, HashMap<ChannelName, Setting>>`, embedded as nested
association lists. -/
structure Mode where
  uid : String
  name : String
  all_device_settings : List (String × List (String × Setting))
  deriving DecidableEq, Repr

/-- `ModeController::is_default_profile` (`modes.rs` lines 255-257). -/
def is_default_profile (profile_uid : Option String) : Bool :=
  match profile_uid with
  | none => false
  | some uid => uid = DEFAULT_PROFILE_UID

/-! ### `determine_active_modes` (C1) -/

/-- The per-device body of the `'currently_present_devices` loop of
`ModeController::determine_active_modes` (`modes.rs` lines 185-242), as a
boolean: `true` means the loop `continue`s to the next device, `false`
means it `continue 'modes` (the mode is rejected).  `current` is
`config.get_device_settings(device_uid)`. -/
def device_settings_match (current : List Setting) (mode : Mode)
    (device_uid : String) : Bool :=
  match alookup mode.all_device_settings device_uid with
  | none => current.isEmpty
  | some mode_channel_settings =>
    (mode_channel_settings.any (fun p =>
        (current.any (fun s => s.channel_name = p.1)).not
        && (is_default_profile p.2.profile_uid).not)).not
    && current.all (fun channel_setting =>
        match alookup mode_channel_settings channel_setting.channel_name with
        | none => is_default_profile channel_setting.profile_uid
        | some mode_setting => channel_setting = mode_setting)

/-- `ModeController::determine_active_modes` (`modes.rs` lines 178-253): the
set of Mode UIDs whose settings match the live settings of every currently
present device.  `live` is `config.get_device_settings`, `devices` the
registry's `all_devices.keys()`. -/
def determine_active_modes (modes : List Mode) (devices : List String)
    (live : String → List Setting) : List String :=
  (modes.filter (fun mode =>
    devices.all (fun d => device_settings_match (live d) mode d))).map Mode.uid

/-- The matching rules exactly as the claim states them, for one device:
a device absent from the Mode matches iff it has no saved settings; for a
device the Mode contains, every Mode channel setting with a live
counterpart must equal it structurally, a Mode entry without a live
counterpart must reference the Default Profile, and a live setting absent
from the Mode must reference the Default Profile. -/
def spec_device_matches (current : List Setting)
    (mode_entry : Option (List (String × Setting))) : Prop :=
  match mode_entry with
  | none => current = []
  | some mcs =>
    (∀ p ∈ mcs,
        (∃ cs ∈ current, cs.channel_name = p.1 ∧ cs = p.2)
        ∨ ((¬ ∃ cs ∈ current, cs.channel_name = p.1)
            ∧ is_default_profile p.2.profile_uid = true))
    ∧ (∀ cs ∈ current,
        (∃ p ∈ mcs, p.1 = cs.channel_name)
        ∨ is_default_profile cs.profile_uid = true)

/-- The claim's notion of a Mode matching the current settings: every
present device matches per `spec_device_matches`. -/
def spec_mode_matches (live : String → List Setting) (devices : List String)
    (mode : Mode) : Prop :=
  ∀ d ∈ devices, spec_device_matches (live d) (alookup mode.all_device_settings d)

/-! ### `profile_deleted` (C5) -/

/-- Shorthand for a Mode's nested settings map type. -/
abbrev ADS : Type := List (String × List (String × Setting))

/-- The channels of one device submap whose Setting references the deleted
profile (the inner loop of `ModeController::search_for_deleted_profile`,
`modes.rs` lines 633-644), in submap order. -/
def affected_channels (profile_uid : String)
    (dm : List (String × Setting)) : List String :=
  dm.filterMap (fun q =>
    if q.2.profile_uid = some profile_uid then some q.1 else none)

/-- The (device, channel) pairs of one Mode whose Setting references the
deleted profile (`search_for_deleted_profile`'s two inner loops). -/
def search_ads (profile_uid : String) (ads : ADS) :
    List (String × String) :=
  ads.flatMap (fun p => (affected_channels profile_uid p.2).map (fun ch => (p.1, ch)))

/-- `ModeController::search_for_deleted_profile` (`modes.rs` lines 625-649):
all (mode uid, device uid, channel name) triples referencing the deleted
profile, in iteration order. -/
def search_for_deleted_profile (profile_uid : String) (modes : List Mode) :
    List (String × String × String) :=
  modes.flatMap (fun m =>
    (search_ads profile_uid m.all_device_settings).map
      (fun t => (m.uid, t.1, t.2)))

/-- One removal step of `ModeController::remove_affected_settings`
(`modes.rs` lines 589-604) at the settings-map level:
`all_device_settings.get_mut(&device_uid).unwrap()` (a missing device is the
`unwrap` panic, `none`), `device_settings.remove(&channel_name)` in place,
then dropping the device entry if its submap became empty. -/
def ads_remove (ads : ADS) (device_uid channel_name : String) : Option ADS :=
  match alookup ads device_uid with
  | none => none
  | some dm =>
    let dm' := aerase dm channel_name
    if dm'.isEmpty then some (aerase ads device_uid)
    else some (astore ads device_uid dm')

/-- Iterated `ads_remove` over a list of (device, channel) pairs. -/
def ads_remove_all (ads : ADS) (ts : List (String × String)) : Option ADS :=
  match ts with
  | [] => some ads
  | (du, ch) :: rest =>
    match ads_remove ads du ch with
    | none => none
    | some ads' => ads_remove_all ads' rest

/-- One iteration of `remove_affected_settings`: `modes.get_mut(&mode_uid)
.unwrap()` selects the mode stored under that uid (modelled as the first
mode with that `uid` field; the controller keys the `HashMap` by
`mode.uid`), then the settings-map removal. -/
def remove_one (modes : List Mode) (mode_uid device_uid channel_name : String) :
    Option (List Mode) :=
  match modes with
  | [] => none
  | m :: rest =>
    if m.uid = mode_uid then
      (ads_remove m.all_device_settings device_uid channel_name).map
        (fun ads => { m with all_device_settings := ads } :: rest)
    else
      (remove_one rest mode_uid device_uid channel_name).map (m :: ·)

/-- `ModeController::remove_affected_settings` (`modes.rs` lines 587-605):
processes the collected triples in order; a failing `unwrap` is `none`. -/
def remove_affected_settings (modes : List Mode)
    (ts : List (String × String × String)) : Option (List Mode) :=
  match ts with
  | [] => some modes
  | (mu, du, ch) :: rest =>
    match remove_one modes mu du ch with
    | none => none
    | some modes' => remove_affected_settings modes' rest

/-- `ModeController::profile_deleted` (`modes.rs` lines 564-569), without
the file save. -/
def profile_deleted (profile_uid : String) (modes : List Mode) :
    Option (List Mode) :=
  remove_affected_settings modes (search_for_deleted_profile profile_uid modes)

/-- The expected net effect on one device submap map: drop every entry
referencing the deleted profile; drop the device entirely when that
emptied a previously non-empty submap. -/
def cleanse_ads (profile_uid : String) (ads : ADS) : ADS :=
  ads.filterMap (fun p =>
    let dm' := p.2.filter (fun q => ¬ q.2.profile_uid = some profile_uid)
    if dm'.isEmpty && !p.2.isEmpty then none else some (p.1, dm'))

/-- The expected net effect of `profile_deleted` on one Mode. -/
def cleanse_mode (profile_uid : String) (m : Mode) : Mode :=
  { m with all_device_settings := cleanse_ads profile_uid m.all_device_settings }

/-! ### `update_mode_order` (C6) -/

/-- `ModeController::update_mode_order` (`modes.rs` lines 507-521): the only
check performed is that the supplied list has the same length as the stored
order; on success the stored order is replaced wholesale.  The error is
`CCError::UserError`. -/
def update_mode_order (mode_order : List String) (mode_uids : List String) :
    Except String (List String) :=
  if mode_order.length ≠ mode_uids.length then
    .error "Mode order list length doesn't match the number of modes"
  else
    .ok mode_uids

/-! ## Alerts (`alerts.rs`) -/

/-- `AlertState` (`alerts.rs`). -/
inductive AlertState where
  | Active
  | Inactive
  deriving DecidableEq, Repr

/-- Modelled from the spec: `channel_metric ∈ {Temp, Duty, Load, RPM, Freq}`
(`ChannelMetric` lives in the newer `setting.rs`, not under `src/`; the
variants are those §3 lists and `alerts.rs` matches on). -/
inductive ChannelMetric where
  | Temp
  | Duty
  | Load
  | RPM
  | Freq
  deriving DecidableEq, Repr

/-- Modelled from the spec: `channel_source: {device_uid, channel_name,
channel_metric}` (`ChannelSource` lives in the newer `setting.rs`, not under
`src/`; the fields are those §3 lists and `alerts.rs` reads). -/
structure ChannelSource where
  device_uid : String
  channel_name : String
  channel_metric : ChannelMetric
  deriving DecidableEq, Repr

/-- `Alert` (`alerts.rs`): `min`/`max` are `f64`, embedded as `ℚ`. -/
structure Alert where
  uid : String
  name : String
  channel_source : ChannelSource
  min : ℚ
  max : ℚ
  state : AlertState
  deriving DecidableEq, Repr

/-- One temperature entry of a `Status` snapshot (spec §3: `temps:[{name,
temp, ...}]`; the `device.rs` defining `TempStatus` is not under `src/`). -/
structure TempStatus where
  name : String
  temp : ℚ
  deriving DecidableEq, Repr

/-- One channel entry of a `Status` snapshot (spec §3: `channels:[{name,
rpm?, duty?, freq?, ...}]`; `duty` is an `f64`, embedded as `ℚ`). -/
structure ChannelStatus where
  name : String
  rpm : Option Nat
  duty : Option ℚ
  freq : Option Nat
  deriving DecidableEq, Repr

/-- A `Status` snapshot (spec §3). -/
structure Status where
  temps : List TempStatus
  channels : List ChannelStatus
  deriving DecidableEq, Repr

/-- The slice of a `Device` that `alerts.rs` consumes: `status_current()`
returns the most recent `Status`, if any (spec §3 `status_history`). -/
structure Device where
  status_current : Option Status
  deriving DecidableEq, Repr

/-- The alert log messages built by `process_and_collect_alerts_to_fire`.
The Rust code formats these into `String`s; the embedding keeps the
interpolated data instead of reproducing `f64` decimal formatting. -/
inductive AlertMessage where
  | deviceNotFound
  | channelNotFound
  | dutyMetricNotFound
  | loadMetricNotFound
  | rpmMetricNotFound
  | freqMetricNotFound
  | aboveMax (channel_name : String) (value max : ℚ)
  | belowMin (channel_name : String) (value min : ℚ)
  | backInRange (channel_name : String) (value min max : ℚ)
  deriving DecidableEq, Repr

/-- `AlertController::activate_alert` (`alerts.rs` lines 373-383): fires only
on a state change. -/
def activate_alert (alert : Alert) (message : AlertMessage) :
    Alert × Option AlertMessage :=
  if alert.state = AlertState.Active then (alert, none)
  else ({ alert with state := AlertState.Active }, some message)

/-- `AlertController::deactivate_alert` (`alerts.rs` lines 385-394): always
fires; the state-change check happens at the call site. -/
def deactivate_alert (alert : Alert) (message : AlertMessage) :
    Alert × Option AlertMessage :=
  ({ alert with state := AlertState.Inactive }, some message)

/-- Outcome of extracting the metric value from a `Status`
(`process_and_collect_alerts_to_fire`, `alerts.rs` lines 260-329). -/
inductive MetricResult where
  | value (v : ℚ)
  | notFound (m : AlertMessage)
  | skip
  deriving DecidableEq, Repr

/-- The metric extraction of `process_and_collect_alerts_to_fire`
(`alerts.rs` lines 260-329): `Temp` reads the named temperature; the other
metrics read the named channel (`Load` reads the `duty` field, as the source
does); a missing channel or field yields the corresponding not-found message.
The `ChannelMetric::Temp` arm of the inner `match` is dead code that just
`continue`s; it is `skip`. -/
def get_channel_value (status : Status) (cs : ChannelSource) : MetricResult :=
  if cs.channel_metric = ChannelMetric.Temp then
    match status.temps.find? (fun t => t.name = cs.channel_name) with
    | none => .notFound .channelNotFound
    | some temp_status => .value temp_status.temp
  else
    match status.channels.find? (fun c => c.name = cs.channel_name) with
    | none => .notFound .channelNotFound
    | some channel_status =>
      match cs.channel_metric with
      | .Duty =>
        match channel_status.duty with
        | none => .notFound .dutyMetricNotFound
        | some duty => .value duty
      | .Load =>
        match channel_status.duty with
        | none => .notFound .loadMetricNotFound
        | some load => .value load
      | .RPM =>
        match channel_status.rpm with
        | none => .notFound .rpmMetricNotFound
        | some rpm => .value (rpm : ℚ)
      | .Freq =>
        match channel_status.freq with
        | none => .notFound .freqMetricNotFound
        | some freq => .value (freq : ℚ)
      | .Temp => .skip

/-- The threshold comparison of `process_and_collect_alerts_to_fire`
(`alerts.rs` lines 330-367). -/
def threshold_check (alert : Alert) (v : ℚ) : Alert × Option AlertMessage :=
  if v > alert.max then
    if alert.state = AlertState.Active then (alert, none)
    else
      activate_alert alert
        (.aboveMax alert.channel_source.channel_name v alert.max)
  else if v < alert.min then
    if alert.state = AlertState.Active then (alert, none)
    else
      activate_alert alert
        (.belowMin alert.channel_source.channel_name v alert.min)
  else if alert.state ≠ AlertState.Inactive then
    deactivate_alert alert
      (.backInRange alert.channel_source.channel_name v alert.min alert.max)
  else (alert, none)

/-- The device registry slice `alerts.rs` reads (`AllDevices`). -/
def DeviceRegistry : Type := List (String × Device)

/-- The per-alert body of `process_and_collect_alerts_to_fire`
(`alerts.rs` lines 254-368).  `Except Unit` models the
`status_current().unwrap()` panic on line 259: `.error ()` is the panic. -/
def eval_alert (registry : DeviceRegistry) (alert : Alert) :
    Except Unit (Alert × Option AlertMessage) :=
  match alookup registry alert.channel_source.device_uid with
  | none => .ok (activate_alert alert .deviceNotFound)
  | some device =>
    match device.status_current with
    | none => .error ()
    | some status =>
      match get_channel_value status alert.channel_source with
      | .notFound m => .ok (activate_alert alert m)
      | .skip => .ok (alert, none)
      | .value v => .ok (threshold_check alert v)

/-- `process_and_collect_alerts_to_fire` over the whole alert list
(`alerts.rs` lines 252-370): mutates each alert in order and collects the
alerts to fire; a panic anywhere aborts. -/
def process_and_collect_alerts_to_fire (registry : DeviceRegistry)
    (alerts : List Alert) :
    Except Unit (List Alert × List (Alert × AlertMessage)) :=
  match alerts with
  | [] => .ok ([], [])
  | alert :: rest =>
    match eval_alert registry alert with
    | .error () => .error ()
    | .ok (alert', fire?) =>
      match process_and_collect_alerts_to_fire registry rest with
      | .error () => .error ()
      | .ok (rest', fires) =>
        .ok (alert' :: rest',
          match fire? with
          | none => fires
          | some m => (alert', m) :: fires)

/-- `LOG_BUFFER_SIZE` (`alerts.rs` line 44). -/
def LOG_BUFFER_SIZE : Nat := 20

/-- `AlertLog` (`alerts.rs`); the timestamp is irrelevant to the claims and
kept abstract as a `Nat`. -/
structure AlertLog where
  uid : String
  name : String
  state : AlertState
  message : AlertMessage
  timestamp : Nat
  deriving DecidableEq, Repr

/-- `AlertController::log_alert_state_change` (`alerts.rs` lines 398-418),
restricted to its effect on the log deque: `pop_front` when the current
length exceeds `LOG_BUFFER_SIZE`, then `push_back`. -/
def log_alert_state_change (logs : List AlertLog) (log : AlertLog) :
    List AlertLog :=
  let logs' := if logs.length > LOG_BUFFER_SIZE then logs.tail else logs
  logs' ++ [log]

/-- `AlertController::update` (`alerts.rs` lines 204-219): replaces the
stored alert but keeps the stored `state`; a missing uid is `CCError::NotFound`
and the map is unchanged. -/
def alert_update (alerts : List (String × Alert)) (alert : Alert) :
    Except String (List (String × Alert)) :=
  match alookup alerts alert.uid with
  | none => .error "NotFound"
  | some current =>
    .ok (astore alerts alert.uid { alert with state := current.state })

/-- A concrete status snapshot reporting a 75-degree temperature. -/
def c2Status : Status :=
  { temps := [{ name := "cpu_temp", temp := 75 }], channels := [] }

/-! ## The configuration document (`config.rs`, C7/C8)

`toml_edit` items are embedded as a small TOML value tree.  `toml_edit`
distinguishes `Table`, `InlineTable` and `Item::Table`; the readers under
test accept exactly one of those in each position and this embedding merges
them into a single `table` constructor — none of the claims depends on
rejecting a table of the wrong flavor.  Rust `f64` values are `ℚ`;
`as_float` on an integer value returns `None`, as in `toml_edit` (the
source works around exactly that in `get_speed_profile`). -/

inductive Toml where
  | bool (b : Bool)
  | int (i : Int)
  | float (q : ℚ)
  | str (s : String)
  | array (items : List Toml)
  | table (entries : List (String × Toml))
  | arrayOfTables (tables : List (List (String × Toml)))

/-- `as_bool`. -/
def Toml.as_bool : Toml → Option Bool
  | .bool b => some b
  | _ => none

/-- `as_integer`. -/
def Toml.as_integer : Toml → Option Int
  | .int i => some i
  | _ => none

/-- `as_float` (an integer is NOT a float, as in `toml_edit`). -/
def Toml.as_float : Toml → Option ℚ
  | .float q => some q
  | _ => none

/-- `as_str`. -/
def Toml.as_str : Toml → Option String
  | .str s => some s
  | _ => none

/-- `as_array`. -/
def Toml.as_array : Toml → Option (List Toml)
  | .array items => some items
  | _ => none

/-- `as_table` / `as_inline_table` (merged, see above). -/
def Toml.as_table : Toml → Option (List (String × Toml))
  | .table entries => some entries
  | _ => none

/-- `as_array_of_tables`. -/
def Toml.as_array_of_tables : Toml → Option (List (List (String × Toml)))
  | .arrayOfTables ts => some ts
  | _ => none

/-- The parsed configuration document (its top-level table). -/
abbrev Document : Type := List (String × Toml)

/-- A `u8` conversion (`try_into` from `i64`): succeeds on `0..=255`. -/
def to_u8 (i : Int) : Option Nat :=
  if 0 ≤ i ∧ i ≤ 255 then some i.toNat else none

/-- A `u16` conversion (`try_into` from `i64`): succeeds on `0..=65535`. -/
def to_u16 (i : Int) : Option Nat :=
  if 0 ≤ i ∧ i ≤ 65535 then some i.toNat else none

/-- `Config::legacy690_ids` (`config.rs` lines 126-137): the values of the
`legacy690` table parsed as booleans; a missing or non-table `legacy690`
yields the empty map. -/
def parse_legacy_values (entries : List (String × Toml)) :
    Except String (List (String × Bool)) :=
  match entries with
  | [] => .ok []
  | (k, v) :: rest =>
    match v.as_bool with
    | none => .error "Parsing boolean value for legacy690"
    | some b =>
      match parse_legacy_values rest with
      | .error e => .error e
      | .ok l => .ok ((k, b) :: l)

/-- `Config::legacy690_ids`. -/
def legacy690_ids (doc : Document) : Except String (List (String × Bool)) :=
  match (alookup doc "legacy690").bind Toml.as_table with
  | none => .ok []
  | some table => parse_legacy_values table

/-- `CoolerControlSettings` (`setting.rs`); `startup_delay` is in seconds. -/
structure CoolerControlSettings where
  apply_on_boot : Bool
  no_init : Bool
  handle_dynamic_temps : Bool
  startup_delay : Nat
  smoothing_level : Nat
  thinkpad_full_speed : Bool
  deriving DecidableEq, Repr

/-- The per-key boolean read of `Config::get_settings`: a missing key falls
back to the default literal, a present key must parse as a boolean. -/
def read_bool (tbl : List (String × Toml)) (key : String) (dflt : Bool)
    (err : String) : Except String Bool :=
  match ((alookup tbl key).getD (.bool dflt)).as_bool with
  | none => .error err
  | some b => .ok b

/-- The per-key clamped integer read of `Config::get_settings`: a missing
key falls back to the default literal, a present key must parse as an
integer; the value is clamped `.max(lo).min(hi)`. -/
def read_clamped_int (tbl : List (String × Toml)) (key : String)
    (dflt lo hi : Int) (err : String) : Except String Int :=
  match ((alookup tbl key).getD (.int dflt)).as_integer with
  | none => .error err
  | some i => .ok (min (max i lo) hi)

/-- `Config::get_settings` (`config.rs` lines 566-604): defaults
`apply_on_boot=true`, `no_init=false`, `handle_dynamic_temps=false`,
`startup_delay=2` clamped `0..=10`, `smoothing_level=0` clamped `0..=5`,
`thinkpad_full_speed=false`; a missing `settings` table is an error.  The
reads are sequential and the first error wins, as with the Rust `?`s. -/
def get_settings (doc : Document) : Except String CoolerControlSettings :=
  match alookup doc "settings" with
  | none => .error "Setting table not found in configuration file"
  | some item =>
    match item.as_table with
    | none => .error "Settings should be a table"
    | some settings =>
      match read_bool settings "apply_on_boot" true
          "apply_on_boot should be a boolean value",
        read_bool settings "no_init" false
          "no_init should be a boolean value",
        read_bool settings "handle_dynamic_temps" false
          "handle_dynamic_temps should be a boolean value",
        read_clamped_int settings "startup_delay" 2 0 10
          "startup_delay should be an integer value",
        read_clamped_int settings "smoothing_level" 0 0 5
          "smoothing_level should be an integer value",
        read_bool settings "thinkpad_full_speed" false
          "thinkpad_full_speed should be a boolean value" with
      | .error e, _, _, _, _, _ => .error e
      | _, .error e, _, _, _, _ => .error e
      | _, _, .error e, _, _, _ => .error e
      | _, _, _, .error e, _, _ => .error e
      | _, _, _, _, .error e, _ => .error e
      | _, _, _, _, _, .error e => .error e
      | .ok b1, .ok b2, .ok b3, .ok i1, .ok i2, .ok b4 =>
        .ok { apply_on_boot := b1, no_init := b2, handle_dynamic_temps := b3,
              startup_delay := i1.toNat, smoothing_level := i2.toNat,
              thinkpad_full_speed := b4 }

/-- `Config::get_speed_fixed` (`config.rs` lines 365-373): optional `u8`
(the `try_into` accepts `0..=255`; the context message claims 0-100 but the
check is the `u8` conversion). -/
def get_speed_fixed (t : List (String × Toml)) : Except String (Option Nat) :=
  match alookup t "speed_fixed" with
  | none => .ok none
  | some v =>
    match v.as_integer with
    | none => .error "speed_fixed should be an integer"
    | some i =>
      match to_u8 i with
      | none => .error "speed_fixed must be a value between 0-100"
      | some n => .ok (some n)

/-- One (temp, duty) pair of `Config::get_speed_profile` (`config.rs` lines
379-404).  An integer temperature is converted to a float; the
`f64::MAX as i64` saturation guards can never fire for an `i64` and the
conversion is the plain embedding into `ℚ`. -/
def parse_profile_temp (temp_value : Toml) : Except String ℚ :=
  match temp_value.as_float with
  | some f => .ok f
  | none =>
    match temp_value.as_integer with
    | none => .error "Speed Profile Temps must be integers or floats"
    | some i => .ok (i : ℚ)

/-- The rest of the pair parse: see `parse_profile_temp` for the
temperature cell. -/
def parse_profile_pair (pair : Toml) : Except String (ℚ × Nat) :=
  match pair.as_array with
  | none => .error "profile pairs should be an array"
  | some arr =>
    match arr.get? 0 with
    | none => .error "Speed Profiles must be pairs"
    | some temp_value =>
      match parse_profile_temp temp_value with
      | .error e => .error e
      | .ok temp =>
        match arr.get? 1 with
        | none => .error "Speed Profiles must be pairs"
        | some duty_value =>
          match duty_value.as_integer with
          | none => .error "Speed Profile Duties must be integers"
          | some i =>
            match to_u8 i with
            | none => .error "speed profiles must be values between 0-100"
            | some n => .ok (temp, n)

/-- The pair loop of `Config::get_speed_profile`. -/
def parse_profile_pairs (pairs : List Toml) :
    Except String (List (ℚ × Nat)) :=
  match pairs with
  | [] => .ok []
  | pair :: rest =>
    match parse_profile_pair pair with
    | .error e => .error e
    | .ok p =>
      match parse_profile_pairs rest with
      | .error e => .error e
      | .ok ps => .ok (p :: ps)

/-- `Config::get_speed_profile` (`config.rs` lines 375-408). -/
def get_speed_profile (t : List (String × Toml)) :
    Except String (Option (List (ℚ × Nat))) :=
  match alookup t "speed_profile" with
  | none => .ok none
  | some v =>
    match v.as_array with
    | none => .error "profile should be an array"
    | some speeds =>
      match parse_profile_pairs speeds with
      | .error e => .error e
      | .ok ps => .ok (some ps)

/-- `Config::get_temp_source` (`config.rs` lines 410-428). -/
def get_temp_source (t : List (String × Toml)) :
    Except String (Option TempSource) :=
  match alookup t "temp_source" with
  | none => .ok none
  | some v =>
    match v.as_table with
    | none => .error "temp_source should be an inline table"
    | some ts =>
      match alookup ts "temp_name" with
      | none => .error "temp_source must have temp_name and device_uid set"
      | some tn =>
        match tn.as_str with
        | none => .error "temp_name should be a String"
        | some temp_name =>
          match alookup ts "device_uid" with
          | none =>
            .error "temp_source must have frontend_temp_name and device_uid set"
          | some du =>
            match du.as_str with
            | none => .error "device_uid should be a String"
            | some device_uid =>
              .ok (some { temp_name := temp_name, device_uid := device_uid })

/-- One RGB triple of the color loops in `get_lighting`/`get_lcd`. -/
def parse_rgb (rgb : Toml) : Except String (Nat × Nat × Nat) :=
  match rgb.as_array with
  | none => .error "RGB values should be an array"
  | some arr =>
    let read1 : Nat → Except String Nat := fun idx =>
      match arr.get? idx with
      | none => .error "RGB values must be in arrays of 3"
      | some v =>
        match v.as_integer with
        | none => .error "RGB values must be integers"
        | some i =>
          match to_u8 i with
          | none => .error "RGB values must be between 0-255"
          | some n => .ok n
    match read1 0 with
    | .error e => .error e
    | .ok r =>
      match read1 1 with
      | .error e => .error e
      | .ok g =>
        match read1 2 with
        | .error e => .error e
        | .ok b => .ok (r, g, b)

/-- The color loop. -/
def parse_colors (colors : List Toml) :
    Except String (List (Nat × Nat × Nat)) :=
  match colors with
  | [] => .ok []
  | rgb :: rest =>
    match parse_rgb rgb with
    | .error e => .error e
    | .ok c =>
      match parse_colors rest with
      | .error e => .error e
      | .ok cs => .ok (c :: cs)

/-- `Config::get_lighting` (`config.rs` lines 430-476).  Note the source
reads `backward` from the CHANNEL table (`setting_table`), not from the
`lighting` subtable. -/
def get_lighting (setting_table : List (String × Toml)) :
    Except String (Option LightingSettings) :=
  match alookup setting_table "lighting" with
  | none => .ok none
  | some v =>
    match v.as_table with
    | none => .error "lighting should be an inline table"
    | some lighting_table =>
      match alookup lighting_table "mode" with
      | none => .error "lighting.mode should be present"
      | some mv =>
        match mv.as_str with
        | none => .error "lighting.mode should be a String"
        | some mode =>
          let speed? : Except String (Option String) :=
            match alookup lighting_table "speed" with
            | none => .ok none
            | some sv =>
              match sv.as_str with
              | none => .error "lighting.speed should be a String"
              | some s => .ok (some s)
          match speed? with
          | .error e => .error e
          | .ok speed =>
            let backward? : Except String (Option Bool) :=
              match alookup setting_table "backward" with
              | none => .ok none
              | some bv =>
                match bv.as_bool with
                | none => .error "lighting.backward should be a boolean"
                | some b => .ok (some b)
            match backward? with
            | .error e => .error e
            | .ok backward =>
              match alookup lighting_table "colors" with
              | none => .error "lighting.colors should always be present"
              | some cv =>
                match cv.as_array with
                | none => .error "lighting.colors should be an array"
                | some colors_array =>
                  match parse_colors colors_array with
                  | .error e => .error e
                  | .ok colors =>
                    .ok (some
                      { mode := mode, speed := speed,
                        backward := backward, colors := colors })

/-- `Config::get_lcd` (`config.rs` lines 478-543). -/
def get_lcd (setting_table : List (String × Toml)) :
    Except String (Option LcdSettings) :=
  match alookup setting_table "lcd" with
  | none => .ok none
  | some v =>
    match v.as_table with
    | none => .error "lcd should be an inline table"
    | some lcd_table =>
      match alookup lcd_table "mode" with
      | none => .error "lcd.mode should be present"
      | some mv =>
        match mv.as_str with
        | none => .error "lcd.mode should be a String"
        | some mode =>
          let brightness? : Except String (Option Nat) :=
            match alookup lcd_table "brightness" with
            | none => .ok none
            | some bv =>
              match bv.as_integer with
              | none => .error "brightness should be an integer"
              | some i =>
                match to_u8 i with
                | none => .error "brightness should be a value between 0-100"
                | some n => .ok (some n)
          match brightness? with
          | .error e => .error e
          | .ok brightness =>
            let orientation? : Except String (Option Nat) :=
              match alookup lcd_table "orientation" with
              | none => .ok none
              | some ov =>
                match ov.as_integer with
                | none => .error "orientation should be an integer"
                | some i =>
                  match to_u16 i with
                  | none =>
                    .error "orientation should be a value between 0-270"
                  | some n => .ok (some n)
            match orientation? with
            | .error e => .error e
            | .ok orientation =>
              let src? : Except String (Option String) :=
                match alookup lcd_table "image_file_src" with
                | none => .ok none
                | some sv =>
                  match sv.as_str with
                  | none => .error "image_file_src should be a String"
                  | some s => .ok (some s)
              match src? with
              | .error e => .error e
              | .ok image_file_src =>
                let proc? : Except String (Option String) :=
                  match alookup lcd_table "image_file_processed" with
                  | none => .ok none
                  | some pv =>
                    match pv.as_str with
                    | none => .error "image_file_processed should be a String"
                    | some s => .ok (some s)
                match proc? with
                | .error e => .error e
                | .ok image_file_processed =>
                  match alookup lcd_table "colors" with
                  | none => .error "lcd.colors should always be present"
                  | some cv =>
                    match cv.as_array with
                    | none => .error "lcd.colors should be an array"
                    | some colors_array =>
                      match parse_colors colors_array with
                      | .error e => .error e
                      | .ok colors =>
                        match get_temp_source lcd_table with
                        | .error e => .error e
                        | .ok temp_source =>
                          .ok (some
                            { mode := mode, brightness := brightness,
                              orientation := orientation,
                              image_file_src := image_file_src,
                              image_file_processed := image_file_processed,
                              colors := colors, temp_source := temp_source })

/-- `Config::get_pwm_mode` (`config.rs` lines 545-553). -/
def get_pwm_mode (t : List (String × Toml)) : Except String (Option Nat) :=
  match alookup t "pwm_mode" with
  | none => .ok none
  | some v =>
    match v.as_integer with
    | none => .error "pwm_mode should be an integer"
    | some i =>
      match to_u8 i with
      | none => .error "pwm_mode should be a value between 0-2"
      | some n => .ok (some n)

/-- `Config::get_profile_uid` (`config.rs` lines 555-563). -/
def get_profile_uid (t : List (String × Toml)) :
    Except String (Option String) :=
  match alookup t "profile_uid" with
  | none => .ok none
  | some v =>
    match v.as_str with
    | none => .error "profile_uid should be a String"
    | some s => .ok (some s)

/-- The per-channel body of `Config::get_device_settings` (`config.rs`
lines 314-336). -/
def parse_channel_setting (channel_name : String)
    (base_item : Toml) : Except String Setting :=
  match base_item.as_table with
  | none => .error "Channel Setting should be an inline table"
  | some setting_table =>
    match get_speed_fixed setting_table with
    | .error e => .error e
    | .ok speed_fixed =>
      match get_speed_profile setting_table with
      | .error e => .error e
      | .ok speed_profile =>
        match get_temp_source setting_table with
        | .error e => .error e
        | .ok temp_source =>
          match get_lighting setting_table with
          | .error e => .error e
          | .ok lighting =>
            match get_lcd setting_table with
            | .error e => .error e
            | .ok lcd =>
              match get_pwm_mode setting_table with
              | .error e => .error e
              | .ok pwm_mode =>
                match get_profile_uid setting_table with
                | .error e => .error e
                | .ok profile_uid =>
                  .ok
                    { channel_name := channel_name,
                      speed_fixed := speed_fixed,
                      speed_profile := speed_profile,
                      temp_source := temp_source, lighting := lighting,
                      lcd := lcd, pwm_mode := pwm_mode,
                      reset_to_default := none, profile_uid := profile_uid }

/-- The channel loop of `Config::get_device_settings`. -/
def parse_channel_settings (entries : List (String × Toml)) :
    Except String (List Setting) :=
  match entries with
  | [] => .ok []
  | (channel_name, item) :: rest =>
    match parse_channel_setting channel_name item with
    | .error e => .error e
    | .ok s =>
      match parse_channel_settings rest with
      | .error e => .error e
      | .ok ss => .ok (s :: ss)

/-- `Config::get_device_settings` (`config.rs` lines 310-339): reads
`document["device-settings"].get(device_uid)`; an absent entry yields no
settings, a present entry must be a table of channel tables. -/
def get_device_settings (doc : Document) (device_uid : String) :
    Except String (List Setting) :=
  match (alookup doc "device-settings").bind Toml.as_table
      |>.bind (fun dt => alookup dt device_uid) with
  | none => .ok []
  | some table_item =>
    match table_item.as_table with
    | none => .error "device setting should be a table"
    | some table => parse_channel_settings table

/-- The device loop of `Config::get_all_devices_settings` (`config.rs`
lines 341-350). -/
def parse_all_devices (doc : Document) (uids : List String) :
    Except String (List (String × List Setting)) :=
  match uids with
  | [] => .ok []
  | uid :: rest =>
    match get_device_settings doc uid with
    | .error e => .error e
    | .ok ss =>
      match parse_all_devices doc rest with
      | .error e => .error e
      | .ok l => .ok ((uid, ss) :: l)

/-- `Config::get_all_devices_settings`. -/
def get_all_devices_settings (doc : Document) :
    Except String (List (String × List Setting)) :=
  match (alookup doc "device-settings").bind Toml.as_table with
  | none => .ok []
  | some device_table => parse_all_devices doc (akeys device_table)

/-- `CoolerControlDeviceSettings` (`setting.rs`). -/
structure CoolerControlDeviceSettings where
  disable : Bool
  deriving DecidableEq, Repr

/-- `Config::get_cc_settings_for_device` (`config.rs` lines 633-648). -/
def get_cc_settings_for_device (doc : Document) (device_uid : String) :
    Except String (Option CoolerControlDeviceSettings) :=
  match (alookup doc "settings").bind Toml.as_table
      |>.bind (fun st => alookup st device_uid) with
  | none => .ok none
  | some table_item =>
    match table_item.as_table with
    | none => .error "CoolerControl device settings should be a table"
    | some dst =>
      match ((alookup dst "disable").getD (.bool false)).as_bool with
      | none => .error "disable should be a boolean value"
      | some disable => .ok (some { disable := disable })

/-- The device loop of `Config::get_all_cc_devices_settings` (`config.rs`
lines 352-363): only keys of length 64 are treated as device UIDs. -/
def parse_all_cc_devices (doc : Document) (uids : List String) :
    Except String (List (String × Option CoolerControlDeviceSettings)) :=
  match uids with
  | [] => .ok []
  | uid :: rest =>
    if uid.length = 64 then
      match get_cc_settings_for_device doc uid with
      | .error e => .error e
      | .ok s =>
        match parse_all_cc_devices doc rest with
        | .error e => .error e
        | .ok l => .ok ((uid, s) :: l)
    else parse_all_cc_devices doc rest

/-- `Config::get_all_cc_devices_settings`. -/
def get_all_cc_devices_settings (doc : Document) :
    Except String (List (String × Option CoolerControlDeviceSettings)) :=
  match (alookup doc "settings").bind Toml.as_table with
  | none => .ok []
  | some device_table => parse_all_cc_devices doc (akeys device_table)

/-- `ProfileType` (`setting.rs`). -/
inductive ProfileType where
  | Default
  | Fixed
  | Graph
  | Mix
  deriving DecidableEq, Repr

/-- `ProfileType::from_str` (strum `EnumString`: exact variant names). -/
def ProfileType.from_str (s : String) : Option ProfileType :=
  if s = "Default" then some .Default
  else if s = "Fixed" then some .Fixed
  else if s = "Graph" then some .Graph
  else if s = "Mix" then some .Mix
  else none

/-- `Profile` (`setting.rs`). -/
structure Profile where
  uid : String
  p_type : ProfileType
  name : String
  speed_fixed : Option Nat
  speed_profile : Option (List (ℚ × Nat))
  temp_source : Option TempSource
  function_uid : String
  deriving DecidableEq, Repr

/-- `Profile::default` (`setting.rs` lines 158-170). -/
def Profile.default : Profile :=
  { uid := "0", p_type := .Default, name := "Default Profile",
    speed_fixed := none, speed_profile := none, temp_source := none,
    function_uid := "0" }

/-- `FunctionType` (`setting.rs`). -/
inductive FunctionType where
  | Identity
  | Standard
  | SimpleMovingAvg
  | ExponentialMovingAvg
  deriving DecidableEq, Repr

/-- `FunctionType::from_str`. -/
def FunctionType.from_str (s : String) : Option FunctionType :=
  if s = "Identity" then some .Identity
  else if s = "Standard" then some .Standard
  else if s = "SimpleMovingAvg" then some .SimpleMovingAvg
  else if s = "ExponentialMovingAvg" then some .ExponentialMovingAvg
  else none

/-- `Function` (`setting.rs`). -/
structure Function where
  uid : String
  name : String
  f_type : FunctionType
  response_delay : Option Nat
  deviance : Option ℚ
  sample_window : Option Nat
  deriving DecidableEq, Repr

/-- `Function::default` (`setting.rs` lines 201-212). -/
def Function.default : Function :=
  { uid := "0", name := "Identity", f_type := .Identity,
    response_delay := none, deviance := none, sample_window := none }

/-- One profile table of `Config::get_profiles` (`config.rs` lines
676-708).  Note: no §3 invariant on `speed_profile` (presence for Graph
profiles, sortedness, duty ≤ 100, length) is checked here. -/
def parse_profile_table (profile_table : List (String × Toml)) :
    Except String Profile :=
  match (alookup profile_table "uid") with
  | none => .error "Profile UID should be present"
  | some uv =>
    match uv.as_str with
    | none => .error "UID should be a string"
    | some uid =>
      match alookup profile_table "name" with
      | none => .error "Profile Name should be present"
      | some nv =>
        match nv.as_str with
        | none => .error "Name should be a string"
        | some name =>
          match alookup profile_table "p_type" with
          | none => .error "Profile type should be present"
          | some tv =>
            match tv.as_str with
            | none => .error "Profile type should be a string"
            | some p_type_str =>
              match ProfileType.from_str p_type_str with
              | none => .error "Profile type should be a valid member"
              | some p_type =>
                match get_speed_fixed profile_table with
                | .error e => .error e
                | .ok speed_fixed =>
                  match get_speed_profile profile_table with
                  | .error e => .error e
                  | .ok speed_profile =>
                    match get_temp_source profile_table with
                    | .error e => .error e
                    | .ok temp_source =>
                      match ((alookup profile_table "function_uid").getD
                          (.str "0")).as_str with
                      | none =>
                        .error "function UID in Profile should be a string"
                      | some function_uid =>
                        .ok
                          { uid := uid, p_type := p_type, name := name,
                            speed_fixed := speed_fixed,
                            speed_profile := speed_profile,
                            temp_source := temp_source,
                            function_uid := function_uid }

/-- The profile loop of `Config::get_profiles`. -/
def parse_profile_tables (tables : List (List (String × Toml))) :
    Except String (List Profile) :=
  match tables with
  | [] => .ok []
  | t :: rest =>
    match parse_profile_table t with
    | .error e => .error e
    | .ok p =>
      match parse_profile_tables rest with
      | .error e => .error e
      | .ok ps => .ok (p :: ps)

/-- `Config::get_profiles` (`config.rs` lines 671-713): a missing
`profiles` key yields the default Profile; otherwise the key must be an
array of tables, each parsed by `parse_profile_table`. -/
def get_profiles (doc : Document) : Except String (List Profile) :=
  match alookup doc "profiles" with
  | none => .ok [Profile.default]
  | some item =>
    match item.as_array_of_tables with
    | none => .error "Profiles should be an array of tables"
    | some arr => parse_profile_tables arr

/-- One function table of `Config::get_functions` (`config.rs` lines
851-892). -/
def parse_function_table (function_table : List (String × Toml)) :
    Except String Function :=
  match alookup function_table "uid" with
  | none => .error "Function UID should be present"
  | some uv =>
    match uv.as_str with
    | none => .error "UID should be a string"
    | some uid =>
      match alookup function_table "name" with
      | none => .error "Function Name should be present"
      | some nv =>
        match nv.as_str with
        | none => .error "Name should be a string"
        | some name =>
          match alookup function_table "f_type" with
          | none => .error "Function type should be present"
          | some tv =>
            match tv.as_str with
            | none => .error "Function type should be a string"
            | some f_type_str =>
              match FunctionType.from_str f_type_str with
              | none => .error "Function type should be a valid member"
              | some f_type =>
                let delay? : Except String (Option Nat) :=
                  match alookup function_table "response_delay" with
                  | none => .ok none
                  | some dv =>
                    match dv.as_integer with
                    | none => .error "response_delay should be an integer"
                    | some i =>
                      match to_u8 i with
                      | none =>
                        .error "response_delay must be a value between 0-255"
                      | some n => .ok (some n)
                match delay? with
                | .error e => .error e
                | .ok response_delay =>
                  let deviance? : Except String (Option ℚ) :=
                    match alookup function_table "deviance" with
                    | none => .ok none
                    | some dv =>
                      match dv.as_float with
                      | none => .error "deviance should be a float"
                      | some f => .ok (some f)
                  match deviance? with
                  | .error e => .error e
                  | .ok deviance =>
                    let window? : Except String (Option Nat) :=
                      match alookup function_table "sample_window" with
                      | none => .ok none
                      | some wv =>
                        match wv.as_integer with
                        | none => .error "sample_window should be an integer"
                        | some i =>
                          match to_u16 i with
                          | none =>
                            .error
                              "sample_window should be a value between 0-65_535"
                          | some n => .ok (some n)
                    match window? with
                    | .error e => .error e
                    | .ok sample_window =>
                      .ok
                        { uid := uid, name := name, f_type := f_type,
                          response_delay := response_delay,
                          deviance := deviance,
                          sample_window := sample_window }

/-- The function loop of `Config::get_functions`. -/
def parse_function_tables (tables : List (List (String × Toml))) :
    Except String (List Function) :=
  match tables with
  | [] => .ok []
  | t :: rest =>
    match parse_function_table t with
    | .error e => .error e
    | .ok f =>
      match parse_function_tables rest with
      | .error e => .error e
      | .ok fs => .ok (f :: fs)

/-- `Config::get_functions` (`config.rs` lines 846-898). -/
def get_functions (doc : Document) : Except String (List Function) :=
  match alookup doc "functions" with
  | none => .ok [Function.default]
  | some item =>
    match item.as_array_of_tables with
    | none => .error "Functions should be an array of tables"
    | some arr => parse_function_tables arr

/-- The content-validation sequence of `Config::load_config_file`
(`config.rs` lines 75-94): after parsing, `legacy690_ids`, `get_settings`,
`get_all_devices_settings`, `get_all_cc_devices_settings`, `get_profiles`
and `get_functions` must all succeed; the first failure aborts the load
as a fatal startup error. -/
def load_checks (doc : Document) : Except String Unit :=
  match legacy690_ids doc with
  | .error e => .error e
  | .ok _ =>
    match get_settings doc with
    | .error e => .error e
    | .ok _ =>
      match get_all_devices_settings doc with
      | .error e => .error e
      | .ok _ =>
        match get_all_cc_devices_settings doc with
        | .error e => .error e
        | .ok _ =>
          match get_profiles doc with
          | .error e => .error e
          | .ok _ =>
            match get_functions doc with
            | .error e => .error e
            | .ok _ => .ok ()

/-- The profile table of the C7 counterexample: a `Graph` profile whose
`speed_profile` is out of order and has a duty of 200. -/
def c7BadProfileTable : List (String × Toml) :=
  [("uid", .str "p1"), ("name", .str "Bad Graph"), ("p_type", .str "Graph"),
   ("speed_profile", .array
     [.array [.float 40, .int 50], .array [.float 20, .int 200]])]

/-- The C7 counterexample document: an empty `settings` table and the bad
Graph profile. -/
def c7Doc : Document :=
  [("settings", .table []), ("profiles", .arrayOfTables [c7BadProfileTable])]

/-- The profile the C7 counterexample parses to. -/
def c7BadProfile : Profile :=
  { uid := "p1", p_type := .Graph, name := "Bad Graph",
    speed_fixed := none, speed_profile := some [(40, 50), (20, 200)],
    temp_source := none, function_uid := "0" }

/-! ## Mode activation (`modes.rs` `activate_mode`, C4)

`activate_mode` reads and writes the configuration's `device-settings`
tables through `Config::get_device_settings` / `Config::set_device_setting`.
For this claim the configuration state is embedded as the typed channel
tables that `set_device_setting` itself writes (`ChannelItem` below): every
key that any write path of `config.rs` can produce is a field.  States
reachable only by hand-editing the TOML (stray keys, wrong value kinds)
are outside this model.  One deliberate simplification: a `Setting`
carrying no content at all stores an empty `ChannelItem` where `toml_edit`
would leave an auto-vivified `Item::None` that table iteration skips; the
difference only makes `get_device_settings` list an all-`None` Setting and
does not affect the operations verified here.

The spawned tasks of `activate_mode` are serialized in spawn order: every
configuration mutation goes through the config's single lock, and the
claim's statement is about the net effect.  Repository `apply`/`reset`
calls are recorded as `ModeOp`s; their configuration effect is
`op_effect`.  `set_config_setting`/`set_reset` repository failures are not
modelled (a failed apply skips the config write; the claim quantifies over
the successful path). -/

/-- The `lighting` subtable as written by `Config::set_setting_lighting`
(`config.rs` lines 207-233): `backward` is written only when true. -/
structure LightingToml where
  mode : String
  speed : Option String
  backward : Bool
  colors : List (Nat × Nat × Nat)
  deriving DecidableEq, Repr

/-- The `lcd` subtable as written by `Config::set_setting_lcd`
(`config.rs` lines 235-297). -/
structure LcdToml where
  mode : String
  brightness : Option Nat
  orientation : Option Nat
  image_file_src : Option String
  image_file_processed : Option String
  colors : List (Nat × Nat × Nat)
  temp_source : Option TempSource
  deriving DecidableEq, Repr

/-- One channel's table under `device-settings.<device>`: exactly the keys
the write paths of `Config::set_device_setting` produce. -/
structure ChannelItem where
  pwm_mode : Option Nat := none
  speed_fixed : Option Nat := none
  speed_profile : Option (List (ℚ × Nat)) := none
  temp_source : Option TempSource := none
  lighting : Option LightingToml := none
  lcd : Option LcdToml := none
  profile_uid : Option String := none
  deriving DecidableEq, Repr

/-- The `/tmp`-to-config-dir move of the processed LCD image
(`set_setting_lcd`, `config.rs` lines 255-269): `Path::file_name` is
modelled as the last non-empty `/`-separated component (the `..`/`.`
corner cases of Rust paths are not modelled) and the `std::fs::copy` is
assumed to succeed; only determinism matters for this claim. -/
def daemon_image_path (p : String) : Option String :=
  match ((p.splitOn "/").filter (fun c => ¬ c = "")).getLast? with
  | none => none
  | some name => some ("/etc/coolercontrol/" ++ name)

/-- What `set_setting_lighting` stores. -/
def to_lighting_toml (l : LightingSettings) : LightingToml :=
  { mode := l.mode, speed := l.speed, backward := l.backward.getD false,
    colors := l.colors }

/-- What `get_lighting` reads back: `backward` is read from the channel
table (where the writer never puts it), hence `none`. -/
def from_lighting_toml (lt : LightingToml) : LightingSettings :=
  { mode := lt.mode, speed := lt.speed, backward := none,
    colors := lt.colors }

/-- What `set_setting_lcd` stores. -/
def to_lcd_toml (l : LcdSettings) : LcdToml :=
  { mode := l.mode, brightness := l.brightness, orientation := l.orientation,
    image_file_src := l.image_file_src,
    image_file_processed := l.image_file_processed.bind daemon_image_path,
    colors := l.colors, temp_source := l.temp_source }

/-- What `get_lcd` reads back. -/
def from_lcd_toml (lt : LcdToml) : LcdSettings :=
  { mode := lt.mode, brightness := lt.brightness,
    orientation := lt.orientation, image_file_src := lt.image_file_src,
    image_file_processed := lt.image_file_processed, colors := lt.colors,
    temp_source := lt.temp_source }

/-- The `Setting` that `Config::get_device_settings` builds from one
channel table (`config.rs` lines 314-336), over the typed state. -/
def item_to_setting (channel_name : String) (it : ChannelItem) : Setting :=
  { channel_name := channel_name, speed_fixed := it.speed_fixed,
    speed_profile := it.speed_profile, temp_source := it.temp_source,
    lighting := it.lighting.map from_lighting_toml,
    lcd := it.lcd.map from_lcd_toml, pwm_mode := it.pwm_mode,
    reset_to_default := none, profile_uid := it.profile_uid }

/-- One device's channel table. -/
abbrev Entry : Type := List (String × ChannelItem)

/-- The `device-settings` table: device uid to channel table. -/
abbrev DevSettings : Type := List (String × Entry)

/-- `Config::get_device_settings` over the typed state. -/
def get_entry_settings (e : Entry) : List Setting :=
  e.map (fun p => item_to_setting p.1 p.2)

/-- The writes `Config::set_device_setting` performs on one channel's
table (`config.rs` lines 147-175, non-reset paths): `pwm_mode` first, then
exactly one of the content branches. -/
def apply_to_item (s : Setting) (it : ChannelItem) : ChannelItem :=
  let it1 :=
    match s.pwm_mode with
    | some p => { it with pwm_mode := some p }
    | none => it
  match s.speed_fixed with
  | some v =>
    { it1 with speed_profile := none, temp_source := none, speed_fixed := some v }
  | none =>
    match s.speed_profile with
    | some prof =>
      let it2 := { it1 with speed_fixed := none, speed_profile := some prof }
      match s.temp_source with
      | some ts => { it2 with temp_source := some ts }
      | none => it2
    | none =>
      match s.lighting with
      | some l => { it1 with lighting := some (to_lighting_toml l) }
      | none =>
        match s.lcd with
        | some lc =>
          let it2 := { it1 with lcd := some (to_lcd_toml lc) }
          match s.temp_source with
          | some ts => { it2 with temp_source := some ts }
          | none => it2
        | none =>
          match s.profile_uid with
          | some pu =>
            { it1 with speed_profile := none, temp_source := none, speed_fixed := none, profile_uid := some pu }
          | none => it1

/-- Whether applying `s` clears the stored `sync` channel: the lighting
branch of `set_device_setting` removes `device_settings["sync"]` when the
written channel is not itself `sync` (`config.rs` lines 164-168). -/
def sync_clearing (s : Setting) : Bool :=
  !(s.reset_to_default.getD false) && s.speed_fixed.isNone
    && s.speed_profile.isNone && s.lighting.isSome
    && !(decide (s.channel_name = "sync"))

/-- `Config::set_device_setting` on one device's channel table:
`reset_to_default` removes the channel; otherwise the channel item is
updated in place (or created) and a lighting write on a non-`sync`
channel drops the `sync` entry. -/
def set_entry (s : Setting) (e : Entry) : Entry :=
  if s.reset_to_default.getD false then aerase e s.channel_name
  else
    let it' := apply_to_item s ((alookup e s.channel_name).getD {})
    let e' := astore e s.channel_name it'
    if s.speed_fixed.isNone && s.speed_profile.isNone && s.lighting.isSome
        && !(decide (s.channel_name = "sync")) then
      aerase e' "sync"
    else e'

/-- `Config::set_device_setting` at the `device-settings` level: the
device entry is `or_insert`ed. -/
def set_device_setting (st : DevSettings) (d : String) (s : Setting) :
    DevSettings :=
  astore st d (set_entry s ((alookup st d).getD []))

/-- The reset `Setting` built by `reset_device_settings` and
`reset_unset_mode_channels` (`modes.rs` lines 325-329 and 362-366). -/
def reset_setting (ch : String) : Setting :=
  { channel_name := ch, reset_to_default := some true }

/-- A repository call spawned by `activate_mode`: `set_reset` +
config reset, or `set_config_setting` + config store. -/
inductive ModeOp where
  | reset (device_uid channel_name : String)
  | apply (device_uid : String) (setting : Setting)
  deriving DecidableEq, Repr

/-- The device a `ModeOp` addresses. -/
def ModeOp.device : ModeOp → String
  | .reset d _ => d
  | .apply d _ => d

/-- The configuration effect of one spawned task. -/
def op_effect (st : DevSettings) (op : ModeOp) : DevSettings :=
  match op with
  | .reset d ch => set_device_setting st d (reset_setting ch)
  | .apply d s => set_device_setting st d s

/-- The same effect at the single-device level. -/
def entry_op_effect (e : Entry) (op : ModeOp) : Entry :=
  match op with
  | .reset _ ch => set_entry (reset_setting ch) e
  | .apply _ s => set_entry s e

/-- The `HashMap<ChannelName, Setting>` collected from
`get_device_settings` in `activate_mode` (`modes.rs` lines 286-291):
later entries overwrite earlier ones on key collision. -/
def saved_map (settings : List Setting) : List (String × Setting) :=
  settings.foldl (fun acc s => astore acc s.channel_name s) []

/-- `ModeController::reset_device_settings` (`modes.rs` lines 314-342):
one reset per saved setting of a device the Mode does not contain. -/
def reset_device_ops (e : Entry) (d : String) : List ModeOp :=
  (get_entry_settings e).map (fun s => .reset d s.channel_name)

/-- `ModeController::reset_unset_mode_channels` (`modes.rs` lines
344-379): resets for saved channels the Mode has no entry for. -/
def reset_unset_ops (saved : List (String × Setting))
    (mode_dev : List (String × Setting)) (d : String) : List ModeOp :=
  (akeys saved).filterMap (fun ch =>
    if amem mode_dev ch then none else some (.reset d ch))

/-- `ModeController::apply_mode_channel_settings` (`modes.rs` lines
381-412): applies for Mode channels whose saved setting differs. -/
def apply_mode_ops (saved : List (String × Setting))
    (mode_dev : List (String × Setting)) (d : String) : List ModeOp :=
  mode_dev.filterMap (fun p =>
    if alookup saved p.1 = some p.2 then none else some (.apply d p.2))

/-- The spawned tasks for one device inside `activate_mode`'s loop
(`modes.rs` lines 281-305), in spawn order. -/
def device_ops (st : DevSettings) (mode : Mode) (d : String) : List ModeOp :=
  match alookup mode.all_device_settings d with
  | none => reset_device_ops ((alookup st d).getD []) d
  | some mode_dev =>
    let saved := saved_map (get_entry_settings ((alookup st d).getD []))
    reset_unset_ops saved mode_dev d ++ apply_mode_ops saved mode_dev d

/-- Sequential execution of the spawned tasks' configuration effects. -/
def run_ops (st : DevSettings) (ops : List ModeOp) : DevSettings :=
  ops.foldl op_effect st

/-- The whole device loop of `activate_mode`: per present device, compute
its tasks from the current configuration and run them. -/
def activate_mode_run (mode : Mode) (devices : List String)
    (st : DevSettings) : DevSettings × List ModeOp :=
  devices.foldl
    (fun acc d =>
      let ops := device_ops acc.1 mode d
      (run_ops acc.1 ops, acc.2 ++ ops))
    (st, [])

/-- `ModeController::activate_mode` (`modes.rs` lines 267-312): a missing
Mode is `NotFound`; a Mode already in `active_modes` returns early with no
effect; otherwise the device loop runs (the `save_config_file` call does
not change the in-memory settings).  Note `activate_mode` itself never
updates `active_modes`. -/
def activate_mode (modes : List Mode) (active_modes devices : List String)
    (mode_uid : String) (st : DevSettings) :
    Except String (DevSettings × List ModeOp) :=
  match modes.find? (fun m => m.uid = mode_uid) with
  | none => .error "Mode not found"
  | some mode =>
    if mode_uid ∈ active_modes then .ok (st, [])
    else .ok (activate_mode_run mode devices st)

/-- The well-formedness every Mode written by this controller satisfies
(`create_mode` keys each Setting under its own `channel_name`, and
`HashMap` keys are unique), plus the claim-breaking sync/lighting
interaction excluded: no device submap both clears `sync` (a lighting
setting on another channel) and carries a `sync` entry. -/
def mode_wf (mode : Mode) : Prop :=
  ∀ p ∈ mode.all_device_settings,
    (∀ q ∈ p.2, (q.2 : Setting).channel_name = q.1)
    ∧ (akeys p.2).Nodup
    ∧ ((∃ q ∈ p.2, sync_clearing q.2 = true) → "sync" ∉ akeys p.2)

/-- The lighting setting of the C4 counterexample. -/
def c4Lighting : LightingSettings :=
  { mode := "rainbow", speed := none, backward := none, colors := [] }

/-- The counterexample's `sync`-channel setting. -/
def c4SyncSetting : Setting :=
  { channel_name := "sync", lighting := some c4Lighting }

/-- The counterexample's `led1`-channel lighting setting (applying it
clears the stored `sync` channel). -/
def c4LedSetting : Setting :=
  { channel_name := "led1", lighting := some c4Lighting }

/-- The counterexample Mode: both a `sync` entry and a lighting entry on
`led1` (such a Mode is reachable: set a lighting setting on `led1`, then
one on `sync`, then `create_mode`). -/
def c4Mode : Mode :=
  { uid := "cm", name := "CM",
    all_device_settings :=
      [("D1", [("sync", c4SyncSetting), ("led1", c4LedSetting)])] }

/-- First activation of the counterexample Mode from an empty config. -/
def c4Run1 : DevSettings × List ModeOp := activate_mode_run c4Mode ["D1"] []

/-- Second activation, from the state the first one left. -/
def c4Run2 : DevSettings × List ModeOp :=
  activate_mode_run c4Mode ["D1"] c4Run1.1

/-- A well-formed Mode (one fixed-speed fan setting) used to witness the
amended idempotence theorem. -/
def c4wMode : Mode :=
  { uid := "m", name := "W",
    all_device_settings :=
      [("D1", [("fan1", { channel_name := "fan1", speed_fixed := some 50 })])] }

/-- A concrete setting referencing profile `p1`. -/
def c5SettingP1 : Setting := { channel_name := "fan", profile_uid := some "p1" }

/-- A concrete setting referencing profile `p2`. -/
def c5SettingP2 : Setting :=
  { channel_name := "pump", profile_uid := some "p2" }

/-- Mode m1: device D1 has one channel on `p1` and one on `p2`. -/
def c5Mode1 : Mode :=
  { uid := "m1", name := "M1",
    all_device_settings :=
      [("D1", [("fan", c5SettingP1), ("pump", c5SettingP2)])] }

/-- Mode m2: device D2 has only a channel on `p1` (so deleting `p1` empties
and removes the device submap). -/
def c5Mode2 : Mode :=
  { uid := "m2", name := "M2",
    all_device_settings := [("D2", [("fan", c5SettingP1)])] }

/-- A concrete live setting: channel `fan` fixed at 50. -/
def c1FanSetting : Setting := { channel_name := "fan", speed_fixed := some 50 }

/-- A concrete Mode setting referencing the Default Profile. -/
def c1PumpDefaultSetting : Setting :=
  { channel_name := "pump", profile_uid := some "0" }

/-- Mode A: only `D1/fan = Fixed 50`. -/
def c1ModeA : Mode :=
  { uid := "A", name := "Mode A",
    all_device_settings := [("D1", [("fan", c1FanSetting)])] }

/-- Mode B: `D1/fan = Fixed 50` and `D1/pump` referencing the Default
Profile. -/
def c1ModeB : Mode :=
  { uid := "B", name := "Mode B",
    all_device_settings :=
      [("D1", [("fan", c1FanSetting), ("pump", c1PumpDefaultSetting)])] }

/-- Concrete live settings: device `D1` has only the fan setting. -/
def c1Live : String → List Setting :=
  fun d => if d = "D1" then [c1FanSetting] else []

/-- A concrete one-device registry whose device has a current status. -/
def c2Registry : DeviceRegistry :=
  [("d1", { status_current := some c2Status })]

/-- A concrete inactive alert on the temperature of that device, with
`max = 70`. -/
def c2Alert : Alert :=
  { uid := "a", name := "hot",
    channel_source :=
      { device_uid := "d1", channel_name := "cpu_temp",
        channel_metric := .Temp },
    min := 0, max := 70, state := .Inactive }

/-- The evaluation outcome for `c2Alert` against `c2Registry`: the alert
turns `Active` and fires. -/
def c2Out : Alert × Option AlertMessage :=
  ({ c2Alert with state := .Active },
    some (.aboveMax "cpu_temp" 75 70))

/-- A concrete stored alert, for exercising `alert_update`. -/
def c9StoredAlert : Alert :=
  { uid := "u1", name := "old",
    channel_source :=
      { device_uid := "d", channel_name := "c", channel_metric := .Temp },
    min := 0, max := 50, state := .Active }

/-- A concrete supplied alert with the same uid but different fields and a
different `state`. -/
def c9SuppliedAlert : Alert :=
  { uid := "u1", name := "new",
    channel_source :=
      { device_uid := "d", channel_name := "c", channel_metric := .Temp },
    min := 0, max := 70, state := .Inactive }

/-- A concrete alert log entry, for evaluating `log_alert_state_change`. -/
def exampleLogA : AlertLog :=
  { uid := "a1", name := "cpu alert", state := .Active,
    message := .deviceNotFound, timestamp := 0 }

/-- A second, distinct concrete alert log entry. -/
def exampleLogB : AlertLog :=
  { uid := "a1", name := "cpu alert", state := .Inactive,
    message := .channelNotFound, timestamp := 1 }

/-! ## Theorems -/

/-! ### Association-list lemmas -/

theorem alookup_astore_self {α : Type} (l : List (String × α)) (k : String)
    (v : α) : alookup (astore l k v) k = some v := by
  induction l with
  | nil => simp [astore, alookup]
  | cons hd tl ih =>
    obtain ⟨k', v'⟩ := hd
    by_cases h : k' = k
    · simp [astore, alookup, h]
    · simp [astore, alookup, h, ih]

theorem alookup_astore_ne {α : Type} (l : List (String × α)) (k k' : String)
    (v : α) (h : k' ≠ k) : alookup (astore l k v) k' = alookup l k' := by
  have hne : ¬ k = k' := fun hh => h hh.symm
  induction l with
  | nil =>
    simp only [astore, alookup]
    rw [if_neg hne]
  | cons hd tl ih =>
    obtain ⟨k0, v0⟩ := hd
    by_cases h0 : k0 = k
    · subst h0
      simp only [astore, if_pos rfl, alookup]
      rw [if_neg hne, if_neg hne]
    · simp only [astore, if_neg h0, alookup]
      by_cases h1 : k0 = k'
      · rw [if_pos h1, if_pos h1]
      · rw [if_neg h1, if_neg h1]
        exact ih

theorem mem_of_alookup_eq_some {α : Type} (l : List (String × α)) (k : String)
    (v : α) (h : alookup l k = some v) : (k, v) ∈ l := by
  induction l with
  | nil => simp [alookup] at h
  | cons hd tl ih =>
    obtain ⟨k0, v0⟩ := hd
    by_cases h0 : k0 = k
    · subst h0
      simp [alookup] at h
      subst h
      exact List.mem_cons_self ..
    · simp only [alookup, if_neg h0] at h
      exact List.mem_cons_of_mem _ (ih h)

theorem alookup_eq_some_of_mem {α : Type} (l : List (String × α)) (k : String)
    (v : α) (hnd : (akeys l).Nodup) (hm : (k, v) ∈ l) :
    alookup l k = some v := by
  induction l with
  | nil => cases hm
  | cons hd tl ih =>
    obtain ⟨k0, v0⟩ := hd
    simp only [akeys, List.map_cons, List.nodup_cons] at hnd
    rcases List.mem_cons.mp hm with heq | hmem
    · cases heq
      simp [alookup]
    · have hne : ¬ k0 = k := by
        intro h
        subst h
        exact hnd.1 (List.mem_map.mpr ⟨(k0, v), hmem, rfl⟩)
      simp only [alookup, if_neg hne]
      exact ih hnd.2 hmem

theorem alookup_eq_none_iff {α : Type} (l : List (String × α)) (k : String) :
    alookup l k = none ↔ ∀ v, (k, v) ∉ l := by
  constructor
  · intro h v hm
    induction l with
    | nil => cases hm
    | cons hd tl ih =>
      obtain ⟨k0, v0⟩ := hd
      by_cases h0 : k0 = k
      · subst h0
        simp [alookup] at h
      · simp only [alookup, if_neg h0] at h
        rcases List.mem_cons.mp hm with heq | hmem
        · exact h0 (congrArg Prod.fst heq).symm
        · exact ih h hmem
  · intro h
    cases halk : alookup l k with
    | none => rfl
    | some v => exact absurd (mem_of_alookup_eq_some _ _ _ halk) (h v)

theorem alookup_cons_self {α : Type} (k : String) (v : α)
    (l : List (String × α)) : alookup ((k, v) :: l) k = some v := by
  simp [alookup]

theorem alookup_cons_ne {α : Type} (k k' : String) (v : α)
    (l : List (String × α)) (h : ¬ k = k') :
    alookup ((k, v) :: l) k' = alookup l k' := by
  simp [alookup, h]

theorem aerase_cons_self {α : Type} (k : String) (v : α)
    (l : List (String × α)) : aerase ((k, v) :: l) k = l := by
  simp [aerase]

theorem aerase_cons_ne {α : Type} (k k' : String) (v : α)
    (l : List (String × α)) (h : ¬ k = k') :
    aerase ((k, v) :: l) k' = (k, v) :: aerase l k' := by
  simp [aerase, h]

theorem astore_cons_self {α : Type} (k : String) (v w : α)
    (l : List (String × α)) : astore ((k, v) :: l) k w = (k, w) :: l := by
  simp [astore]

theorem astore_cons_ne {α : Type} (k k' : String) (v w : α)
    (l : List (String × α)) (h : ¬ k = k') :
    astore ((k, v) :: l) k' w = (k, v) :: astore l k' w := by
  simp [astore, h]

theorem aerase_append_of_not_mem {α : Type} (l1 l2 : List (String × α))
    (k : String) (h : k ∉ akeys l1) :
    aerase (l1 ++ l2) k = l1 ++ aerase l2 k := by
  induction l1 with
  | nil => simp
  | cons hd tl ih =>
    obtain ⟨k0, v0⟩ := hd
    simp only [akeys, List.map_cons, List.mem_cons] at h
    push_neg at h
    rw [List.cons_append, aerase_cons_ne _ _ _ _ (fun hh => h.1 hh.symm),
      ih (by simpa [akeys] using h.2)]
    rfl

/-! ### C1: `determine_active_modes` -/

theorem device_settings_match_iff (current : List Setting) (mode : Mode)
    (d : String)
    (hcur : (current.map Setting.channel_name).Nodup)
    (hmcs : ∀ mcs, alookup mode.all_device_settings d = some mcs →
      (akeys mcs).Nodup) :
    device_settings_match current mode d = true ↔
      spec_device_matches current (alookup mode.all_device_settings d) := by
  cases hent : alookup mode.all_device_settings d with
  | none =>
    simp [device_settings_match, spec_device_matches, hent,
      List.isEmpty_iff]
  | some mcs =>
    have hnd := hmcs mcs hent
    have hinj : ∀ cs ∈ current, ∀ cs' ∈ current,
        cs.channel_name = cs'.channel_name → cs = cs' :=
      fun cs hcs cs' hcs' h => List.inj_on_of_nodup_map hcur hcs hcs' h
    simp only [device_settings_match, spec_device_matches, hent,
      Bool.and_eq_true, Bool.not_eq_true', List.any_eq_false,
      List.all_eq_true]
    constructor
    · rintro ⟨h1, h2⟩
      constructor
      · intro p hp
        have h1p := h1 p hp
        by_cases hex : ∃ cs ∈ current, cs.channel_name = p.1
        · obtain ⟨cs, hcs, hname⟩ := hex
          left
          refine ⟨cs, hcs, hname, ?_⟩
          have h2cs := h2 cs hcs
          have halk : alookup mcs cs.channel_name = some p.2 := by
            rw [hname]
            exact alookup_eq_some_of_mem _ _ _ hnd hp
          rw [halk] at h2cs
          exact of_decide_eq_true h2cs
        · right
          refine ⟨hex, ?_⟩
          have hall : ∀ x ∈ current, ¬ decide (x.channel_name = p.1) = true :=
            fun x hx hdec => hex ⟨x, hx, of_decide_eq_true hdec⟩
          cases hdef : is_default_profile p.2.profile_uid with
          | true => rfl
          | false => exact absurd ⟨hall, hdef⟩ h1p
      · intro cs hcs
        have h2cs := h2 cs hcs
        cases halk : alookup mcs cs.channel_name with
        | none =>
          rw [halk] at h2cs
          exact Or.inr h2cs
        | some ms =>
          exact Or.inl ⟨(cs.channel_name, ms),
            mem_of_alookup_eq_some _ _ _ halk, rfl⟩
    · rintro ⟨hA, hB⟩
      constructor
      · intro p hp hcontra
        rcases hA p hp with ⟨cs, hcs, hname, _⟩ | ⟨hnone, hdef⟩
        · exact hcontra.1 cs hcs (decide_eq_true hname)
        · exact absurd (hcontra.2.symm.trans hdef) (by simp)
      · intro cs hcs
        cases halk : alookup mcs cs.channel_name with
        | none =>
          rcases hB cs hcs with ⟨p, hp, hname⟩ | hdef
          · exfalso
            have := (alookup_eq_none_iff mcs cs.channel_name).mp halk p.2
            apply this
            have : p = (cs.channel_name, p.2) := by
              cases p
              simp at hname ⊢
              exact hname
            exact this ▸ hp
          · exact hdef
        | some ms =>
          have hmem := mem_of_alookup_eq_some _ _ _ halk
          rcases hA (cs.channel_name, ms) hmem with
            ⟨cs', hcs', hname', heq'⟩ | ⟨hnone, _⟩
          · have : cs' = cs := hinj cs' hcs' cs hcs hname'
            rw [← this, heq']
            exact decide_eq_true rfl
          · exact absurd ⟨cs, hcs, rfl⟩ hnone

/-- C1: `determine_active_modes` returns exactly the set of Mode UIDs that
match the current settings under the claim's rules: a currently present
device absent from the Mode matches iff it has no saved settings; for a
device the Mode contains, Mode channel settings with a live counterpart
must equal it structurally, Mode entries without a live counterpart must
reference the Default Profile (uid `"0"`), live settings absent from the
Mode must reference the Default Profile, and any other mismatch excludes
the Mode.  The `Nodup` hypotheses record that live settings come from a
TOML table (unique channel names) and Mode submaps from `HashMap`s (unique
keys).  The result may be empty or contain several Modes. -/
theorem c1_determine_active_modes (modes : List Mode) (devices : List String)
    (live : String → List Setting)
    (hlive : ∀ d, ((live d).map Setting.channel_name).Nodup)
    (hmcs : ∀ m ∈ modes, ∀ p ∈ m.all_device_settings, (akeys p.2).Nodup) :
    ∀ uid, uid ∈ determine_active_modes modes devices live ↔
      ∃ m ∈ modes, m.uid = uid ∧ spec_mode_matches live devices m := by
  intro uid
  simp only [determine_active_modes, List.mem_map, List.mem_filter]
  constructor
  · rintro ⟨m, ⟨hm, hmatch⟩, rfl⟩
    refine ⟨m, hm, rfl, ?_⟩
    intro d hd
    rw [← device_settings_match_iff (live d) m d (hlive d)
      (fun mcs h => hmcs m hm (d, mcs) (mem_of_alookup_eq_some _ _ _ h))]
    exact List.all_eq_true.mp hmatch d hd
  · rintro ⟨m, hm, rfl, hspec⟩
    refine ⟨m, ⟨hm, ?_⟩, rfl⟩
    rw [List.all_eq_true]
    intro d hd
    rw [device_settings_match_iff (live d) m d (hlive d)
      (fun mcs h => hmcs m hm (d, mcs) (mem_of_alookup_eq_some _ _ _ h))]
    exact hspec d hd

/-- C1 witness: the spec's active-mode scenario (§8 item 3): live `D1/fan =
Fixed 50`; Mode A contains only `D1/fan`, Mode B additionally `D1/pump`
referencing the Default Profile.  Both A and B are active, and the theorem
applies at this input. -/
theorem c1_witness :
    determine_active_modes [c1ModeA, c1ModeB] ["D1"] c1Live = ["A", "B"]
    ∧ ("A" ∈ determine_active_modes [c1ModeA, c1ModeB] ["D1"] c1Live ↔
        ∃ m ∈ [c1ModeA, c1ModeB], m.uid = "A"
          ∧ spec_mode_matches c1Live ["D1"] m) :=
  ⟨by decide,
    c1_determine_active_modes [c1ModeA, c1ModeB] ["D1"] c1Live
      (by
        intro d
        by_cases h : d = "D1" <;> simp [c1Live, h, c1FanSetting])
      (by decide) "A"⟩

/-! ### C5: `profile_deleted` lemmas -/

theorem affected_channels_sub (P : String) (dm : List (String × Setting)) :
    ∀ ch ∈ affected_channels P dm, ch ∈ akeys dm := by
  intro ch hch
  simp only [affected_channels, List.mem_filterMap] at hch
  obtain ⟨q, hq, hif⟩ := hch
  by_cases h : q.2.profile_uid = some P
  · simp only [if_pos h, Option.some.injEq] at hif
    exact hif ▸ List.mem_map.mpr ⟨q, hq, rfl⟩
  · simp [if_neg h] at hif

theorem ads_remove_all_append (ads : ADS) (ts1 ts2 : List (String × String)) :
    ads_remove_all ads (ts1 ++ ts2) =
      (ads_remove_all ads ts1).bind (fun a => ads_remove_all a ts2) := by
  induction ts1 generalizing ads with
  | nil => rfl
  | cons t rest ih =>
    obtain ⟨du, ch⟩ := t
    simp only [List.cons_append, ads_remove_all]
    cases ads_remove ads du ch with
    | none => rfl
    | some a => exact ih a

theorem ads_remove_cons_of_ne (d du ch : String)
    (dm : List (String × Setting)) (ads' : ADS) (h : ¬ d = du) :
    ads_remove ((d, dm) :: ads') du ch =
      (ads_remove ads' du ch).map (fun a => (d, dm) :: a) := by
  simp only [ads_remove, alookup_cons_ne _ _ _ _ h]
  cases alookup ads' du with
  | none => rfl
  | some dm2 =>
    by_cases he : (aerase dm2 ch).isEmpty
    · simp [he, aerase_cons_ne _ _ _ _ h]
    · simp [he, astore_cons_ne _ _ _ _ _ h]

theorem ads_remove_all_cons_of_ne (d : String) (dm : List (String × Setting))
    (ads' : ADS) (ts : List (String × String))
    (h : ∀ t ∈ ts, ¬ d = t.1) :
    ads_remove_all ((d, dm) :: ads') ts =
      (ads_remove_all ads' ts).map (fun a => (d, dm) :: a) := by
  induction ts generalizing ads' with
  | nil => rfl
  | cons t rest ih =>
    obtain ⟨du, ch⟩ := t
    simp only [ads_remove_all,
      ads_remove_cons_of_ne d du ch dm ads' (h (du, ch) (List.mem_cons_self ..))]
    cases ads_remove ads' du ch with
    | none => rfl
    | some a => exact ih a (fun t ht => h t (List.mem_cons_of_mem _ ht))

theorem ads_remove_all_head (P d : String) (ads' : ADS)
    (dm kept : List (String × Setting))
    (hnd : (akeys (kept ++ dm)).Nodup)
    (hdisj : ∀ ch ∈ akeys kept, ch ∉ affected_channels P dm) :
    ads_remove_all ((d, kept ++ dm) :: ads')
        ((affected_channels P dm).map (fun ch => (d, ch))) =
      some (
        if (kept ++ dm.filter
              (fun q => ¬ q.2.profile_uid = some P)).isEmpty
            && !(kept ++ dm).isEmpty then ads'
        else
          (d, kept ++ dm.filter
            (fun q => ¬ q.2.profile_uid = some P)) :: ads') := by
  induction dm generalizing kept with
  | nil =>
    simp [affected_channels, ads_remove_all, Bool.and_not_self]
  | cons q dm3 ih =>
    obtain ⟨c2, s2⟩ := q
    by_cases href : s2.profile_uid = some P
    · have haff : affected_channels P ((c2, s2) :: dm3) =
          c2 :: affected_channels P dm3 := by
        simp [affected_channels, href]
      have hc2 : c2 ∉ akeys kept := by
        intro hmem
        exact hdisj c2 hmem (haff ▸ List.mem_cons_self ..)
      have hstep : ads_remove ((d, kept ++ (c2, s2) :: dm3) :: ads') d c2 =
          if (kept ++ dm3).isEmpty then some ads'
          else some ((d, kept ++ dm3) :: ads') := by
        simp only [ads_remove, alookup_cons_self,
          aerase_append_of_not_mem _ _ _ hc2, aerase_cons_self]
        by_cases he : ((kept ++ dm3 : List (String × Setting))).isEmpty
        · simp [he, aerase_cons_self]
        · simp [he, astore_cons_self]
      rw [haff]
      simp only [List.map_cons, ads_remove_all, hstep]
      by_cases he : ((kept ++ dm3 : List (String × Setting))).isEmpty
      · obtain ⟨hk, hd3⟩ : kept = [] ∧ dm3 = [] := by
          have := List.isEmpty_iff.mp he
          exact List.append_eq_nil.mp this
        subst hk
        subst hd3
        simp [he, affected_channels, ads_remove_all, aerase, href,
          List.filter_cons, List.isEmpty]
      · rw [Bool.not_eq_true] at he
        simp only [he, Bool.false_eq_true, if_false]
        have hnd3 : (akeys (kept ++ dm3)).Nodup := by
          apply List.Nodup.sublist _ hnd
          apply List.Sublist.map
          exact (List.sublist_cons_self ..).append_left kept
        have hdisj3 : ∀ ch ∈ akeys kept, ch ∉ affected_channels P dm3 := by
          intro ch hch hmem
          exact hdisj ch hch (haff ▸ List.mem_cons_of_mem _ hmem)
        rw [ih kept hnd3 hdisj3]
        have hfil : ((c2, s2) :: dm3).filter
            (fun q => ¬ q.2.profile_uid = some P) =
            dm3.filter (fun q => ¬ q.2.profile_uid = some P) := by
          simp [List.filter_cons, href]
        rw [hfil]
        have hne1 : ((kept ++ (c2, s2) :: dm3 : List (String × Setting))).isEmpty
            = false := by
          simp
        rw [hne1, he]
    · have haff : affected_channels P ((c2, s2) :: dm3) =
          affected_channels P dm3 := by
        simp [affected_channels, href]
      have hassoc : kept ++ (c2, s2) :: dm3 = (kept ++ [(c2, s2)]) ++ dm3 := by
        simp
      have hnd' : (akeys ((kept ++ [(c2, s2)]) ++ dm3)).Nodup := by
        rw [← hassoc]
        exact hnd
      have hc2dm3 : c2 ∉ akeys dm3 := by
        have : (akeys ((c2, s2) :: dm3)).Nodup := by
          apply List.Nodup.sublist _ hnd
          apply List.Sublist.map
          exact List.sublist_append_right ..
        simp only [akeys, List.map_cons, List.nodup_cons] at this
        exact fun h => this.1 (by simpa [akeys] using h)
      have hdisj' : ∀ ch ∈ akeys (kept ++ [(c2, s2)]),
          ch ∉ affected_channels P dm3 := by
        intro ch hch hmem
        simp only [akeys, List.map_append, List.mem_append, List.map_cons,
          List.map_nil, List.mem_singleton] at hch
        rcases hch with hch | hch
        · exact hdisj ch (by simpa [akeys] using hch) (haff ▸ hmem)
        · subst hch
          exact hc2dm3 (affected_channels_sub P dm3 ch hmem)
      rw [haff, hassoc, ih (kept ++ [(c2, s2)]) hnd' hdisj']
      have hfil : ((c2, s2) :: dm3).filter
          (fun q => ¬ q.2.profile_uid = some P) =
          (c2, s2) :: dm3.filter (fun q => ¬ q.2.profile_uid = some P) := by
        simp [List.filter_cons, href]
      rw [hfil]
      have hne1 : ((kept ++ [(c2, s2)] ++
          dm3.filter (fun q => ¬ q.2.profile_uid = some P) :
          List (String × Setting))).isEmpty = false := by
        simp
      have hne2 : ((kept ++ (c2, s2) ::
          dm3.filter (fun q => ¬ q.2.profile_uid = some P) :
          List (String × Setting))).isEmpty = false := by
        simp
      rw [hne1, hne2]
      simp

theorem search_ads_keys (P : String) (ads : ADS) :
    ∀ t ∈ search_ads P ads, t.1 ∈ akeys ads := by
  intro t ht
  simp only [search_ads, List.mem_flatMap, List.mem_map] at ht
  obtain ⟨p, hp, ch, _, rfl⟩ := ht
  exact List.mem_map.mpr ⟨p, hp, rfl⟩

theorem ads_remove_all_search (P : String) (ads : ADS)
    (hnd : (akeys ads).Nodup)
    (hch : ∀ p ∈ ads, (akeys p.2).Nodup) :
    ads_remove_all ads (search_ads P ads) = some (cleanse_ads P ads) := by
  induction ads with
  | nil => rfl
  | cons p ads' ih =>
    obtain ⟨d, dm⟩ := p
    simp only [akeys, List.map_cons, List.nodup_cons] at hnd
    have hdm : (akeys dm).Nodup := hch (d, dm) (List.mem_cons_self ..)
    have hsearch : search_ads P ((d, dm) :: ads') =
        (affected_channels P dm).map (fun ch => (d, ch)) ++ search_ads P ads' := by
      simp [search_ads]
    rw [hsearch, ads_remove_all_append]
    have hhead := ads_remove_all_head P d ads' dm [] (by simpa [akeys] using hdm)
      (by simp [akeys])
    simp only [List.nil_append] at hhead
    rw [hhead, Option.some_bind]
    have hrest : ∀ t ∈ search_ads P ads', ¬ d = t.1 := by
      intro t ht hdt
      exact hnd.1 (hdt ▸ search_ads_keys P ads' t ht)
    have ih' := ih (by simpa [akeys] using hnd.2)
      (fun q hq => hch q (List.mem_cons_of_mem _ hq))
    by_cases hcond : ((dm.filter (fun q => ¬ q.2.profile_uid = some P)).isEmpty
        && !dm.isEmpty) = true
    · rw [if_pos hcond, ih']
      have : cleanse_ads P ((d, dm) :: ads') = cleanse_ads P ads' := by
        simp only [cleanse_ads, List.filterMap_cons]
        rw [if_pos hcond]
      rw [this]
    · rw [if_neg hcond, ads_remove_all_cons_of_ne _ _ _ _ hrest, ih']
      have : cleanse_ads P ((d, dm) :: ads') =
          (d, dm.filter (fun q => ¬ q.2.profile_uid = some P)) ::
            cleanse_ads P ads' := by
        simp only [cleanse_ads, List.filterMap_cons]
        rw [if_neg hcond]
      rw [this]
      rfl

theorem remove_affected_head (rest : List Mode) (ts : List (String × String)) :
    ∀ (m : Mode),
    remove_affected_settings (m :: rest)
        (ts.map (fun t => (m.uid, t.1, t.2))) =
      (ads_remove_all m.all_device_settings ts).map
        (fun ads => { m with all_device_settings := ads } :: rest) := by
  induction ts with
  | nil => intro m; rfl
  | cons t ts' ih =>
    intro m
    obtain ⟨du, ch⟩ := t
    simp only [List.map_cons, remove_affected_settings, remove_one, if_pos rfl,
      ads_remove_all]
    cases h : ads_remove m.all_device_settings du ch with
    | none => rfl
    | some a =>
      simp only [Option.map_some]
      exact ih { m with all_device_settings := a }

theorem remove_affected_cons_of_ne (m : Mode)
    (ts : List (String × String × String)) :
    ∀ (rest : List Mode), (∀ t ∈ ts, ¬ m.uid = t.1) →
    remove_affected_settings (m :: rest) ts =
      (remove_affected_settings rest ts).map (fun ms => m :: ms) := by
  induction ts with
  | nil => intro rest _; rfl
  | cons t ts' ih =>
    intro rest hne
    obtain ⟨mu, du, ch⟩ := t
    simp only [remove_affected_settings, remove_one,
      if_neg (hne (mu, du, ch) (List.mem_cons_self ..))]
    cases h : remove_one rest mu du ch with
    | none => rfl
    | some rest' =>
      simp only [Option.map_some]
      exact ih rest' (fun t ht => hne t (List.mem_cons_of_mem _ ht))

theorem search_profile_uids (P : String) (modes : List Mode) :
    ∀ t ∈ search_for_deleted_profile P modes, t.1 ∈ modes.map Mode.uid := by
  intro t ht
  simp only [search_for_deleted_profile, List.mem_flatMap, List.mem_map] at ht
  obtain ⟨m, hm, t', _, rfl⟩ := ht
  exact List.mem_map.mpr ⟨m, hm, rfl⟩

/-- The characterization: `profile_deleted` succeeds and maps every Mode
through `cleanse_mode`. -/
theorem profile_deleted_eq (P : String) (modes : List Mode)
    (hu : (modes.map Mode.uid).Nodup)
    (hdev : ∀ m ∈ modes, (akeys m.all_device_settings).Nodup)
    (hch : ∀ m ∈ modes, ∀ p ∈ m.all_device_settings, (akeys p.2).Nodup) :
    profile_deleted P modes = some (modes.map (cleanse_mode P)) := by
  induction modes with
  | nil => rfl
  | cons m rest ih =>
    simp only [List.map_cons, List.nodup_cons] at hu
    have hsearch : search_for_deleted_profile P (m :: rest) =
        (search_ads P m.all_device_settings).map (fun t => (m.uid, t.1, t.2))
          ++ search_for_deleted_profile P rest := by
      simp [search_for_deleted_profile]
    have happ : ∀ (ms : List Mode) (ts1 ts2 : List (String × String × String)),
        remove_affected_settings ms (ts1 ++ ts2) =
          (remove_affected_settings ms ts1).bind
            (fun ms' => remove_affected_settings ms' ts2) := by
      intro ms ts1 ts2
      induction ts1 generalizing ms with
      | nil => rfl
      | cons t ts1' ih2 =>
        obtain ⟨mu, du, ch⟩ := t
        simp only [List.cons_append, remove_affected_settings]
        cases remove_one ms mu du ch with
        | none => rfl
        | some ms' => exact ih2 ms'
    simp only [profile_deleted] at ih ⊢
    rw [hsearch, happ, remove_affected_head rest _ m,
      ads_remove_all_search P m.all_device_settings
        (hdev m (List.mem_cons_self ..))
        (hch m (List.mem_cons_self ..))]
    simp only [Option.map_some', Option.some_bind]
    rw [remove_affected_cons_of_ne
      { m with all_device_settings := cleanse_ads P m.all_device_settings }
      _ rest (fun t ht hmt => hu.1 (hmt ▸ search_profile_uids P rest t ht)),
      ih hu.2 (fun m' hm' => hdev m' (List.mem_cons_of_mem _ hm'))
        (fun m' hm' => hch m' (List.mem_cons_of_mem _ hm'))]
    rfl

theorem alookup_eq_none_of_not_mem {α : Type} (l : List (String × α))
    (k : String) (h : k ∉ akeys l) : alookup l k = none := by
  rw [alookup_eq_none_iff]
  intro v hm
  exact h (List.mem_map.mpr ⟨(k, v), hm, rfl⟩)

theorem akeys_cleanse_sub (P : String) (ads : ADS) :
    ∀ k ∈ akeys (cleanse_ads P ads), k ∈ akeys ads := by
  intro k hk
  simp only [akeys, List.mem_map] at hk ⊢
  obtain ⟨p, hp, rfl⟩ := hk
  simp only [cleanse_ads, List.mem_filterMap] at hp
  obtain ⟨p0, hp0, hif⟩ := hp
  refine ⟨p0, hp0, ?_⟩
  split at hif
  · exact Option.noConfusion hif
  · injection hif with h
    rw [← h]

theorem cleanse_ads_lookup (P : String) (ads : ADS) (d : String)
    (dm : List (String × Setting))
    (hnd : (akeys ads).Nodup) (hm : (d, dm) ∈ ads) :
    alookup (cleanse_ads P ads) d =
      if (dm.filter (fun q => ¬ q.2.profile_uid = some P)).isEmpty
          && !dm.isEmpty then none
      else some (dm.filter (fun q => ¬ q.2.profile_uid = some P)) := by
  induction ads with
  | nil => cases hm
  | cons p ads' ih =>
    obtain ⟨d0, dm0⟩ := p
    simp only [akeys, List.map_cons, List.nodup_cons] at hnd
    rcases List.mem_cons.mp hm with heq | hmem
    · injection heq with h1 h2
      subst h1
      subst h2
      simp only [cleanse_ads, List.filterMap_cons]
      by_cases hcond : ((dm.filter
          (fun q => ¬ q.2.profile_uid = some P)).isEmpty && !dm.isEmpty) = true
      · rw [if_pos hcond, if_pos hcond]
        apply alookup_eq_none_of_not_mem
        intro hk
        exact hnd.1 (akeys_cleanse_sub P ads' d hk)
      · rw [if_neg hcond, if_neg hcond]
        exact alookup_cons_self ..
    · have hne : ¬ d0 = d := by
        intro h
        subst h
        exact hnd.1 (List.mem_map.mpr ⟨(d0, dm), hmem, rfl⟩)
      simp only [cleanse_ads, List.filterMap_cons]
      by_cases hcond : ((dm0.filter
          (fun q => ¬ q.2.profile_uid = some P)).isEmpty && !dm0.isEmpty) = true
      · rw [if_pos hcond]
        exact ih hnd.2 hmem
      · rw [if_neg hcond, alookup_cons_ne _ _ _ _ hne]
        exact ih hnd.2 hmem

/-- C5: after `profile_deleted(P)` no Mode contains a (device, channel)
Setting referencing `P`; a device submap that was non-empty and whose
entries all referenced `P` (so that the removals emptied it) is itself
removed; and every (device, channel) entry whose Setting does not
reference `P` is still present, unchanged.  The result is exactly
`cleanse_mode P` applied to every stored Mode, and the traversal never
hits the `unwrap` panics.  The `Nodup` hypotheses record `HashMap` key
uniqueness. -/
theorem c5_profile_deleted_correct (P : String) (modes : List Mode)
    (hu : (modes.map Mode.uid).Nodup)
    (hdev : ∀ m ∈ modes, (akeys m.all_device_settings).Nodup)
    (hch : ∀ m ∈ modes, ∀ p ∈ m.all_device_settings, (akeys p.2).Nodup) :
    ∃ result, profile_deleted P modes = some result
      ∧ (∀ m' ∈ result, ∀ p ∈ m'.all_device_settings, ∀ q ∈ p.2,
          ¬ q.2.profile_uid = some P)
      ∧ (∀ m ∈ modes, ∀ p ∈ m.all_device_settings, ¬ p.2.isEmpty = true →
          (∀ q ∈ p.2, q.2.profile_uid = some P) →
          alookup (cleanse_mode P m).all_device_settings p.1 = none)
      ∧ (∀ m ∈ modes, ∀ p ∈ m.all_device_settings, ∀ q ∈ p.2,
          ¬ q.2.profile_uid = some P →
          ∃ dm', alookup (cleanse_mode P m).all_device_settings p.1 = some dm'
            ∧ alookup dm' q.1 = some q.2)
      ∧ result = modes.map (cleanse_mode P) := by
  refine ⟨modes.map (cleanse_mode P), profile_deleted_eq P modes hu hdev hch,
    ?_, ?_, ?_, rfl⟩
  · intro m' hm' p hp q hq
    obtain ⟨m, _, rfl⟩ := List.mem_map.mp hm'
    simp only [cleanse_mode, cleanse_ads, List.mem_filterMap] at hp
    obtain ⟨p0, _, hif⟩ := hp
    split at hif
    · exact Option.noConfusion hif
    · injection hif with h
      rw [← h] at hq
      have hq' : q ∈ p0.2.filter
          (fun q => ¬ q.2.profile_uid = some P) := hq
      exact of_decide_eq_true (List.mem_filter.mp hq').2
  · intro m hm p hp hne hall
    have hfil : p.2.filter (fun q => ¬ q.2.profile_uid = some P) = [] := by
      rw [List.filter_eq_nil_iff]
      intro q hq
      simp [hall q hq]
    show alookup (cleanse_ads P m.all_device_settings) p.1 = none
    rw [cleanse_ads_lookup P m.all_device_settings p.1 p.2 (hdev m hm) hp,
      hfil]
    have : (p.2.isEmpty : Bool) = false := by
      cases h : p.2.isEmpty
      · rfl
      · exact absurd h hne
    rw [this]
    rfl
  · intro m hm p hp q hq href
    have hqf : q ∈ p.2.filter (fun q => ¬ q.2.profile_uid = some P) :=
      List.mem_filter.mpr ⟨hq, decide_eq_true href⟩
    have hfne : (p.2.filter
        (fun q => ¬ q.2.profile_uid = some P)).isEmpty = false := by
      cases h : (p.2.filter (fun q => ¬ q.2.profile_uid = some P)).isEmpty
      · rfl
      · rw [List.isEmpty_iff] at h
        rw [h] at hqf
        cases hqf
    refine ⟨p.2.filter (fun q => ¬ q.2.profile_uid = some P), ?_, ?_⟩
    · show alookup (cleanse_ads P m.all_device_settings) p.1 = _
      rw [cleanse_ads_lookup P m.all_device_settings p.1 p.2 (hdev m hm) hp,
        hfne]
      rfl
    · apply alookup_eq_some_of_mem
      · apply List.Nodup.sublist _ (hch m hm p hp)
        exact (List.filter_sublist _).map _
      · exact hqf

/-- C5 witness: deleting profile `p1` from two concrete Modes, via the
theorem: m1 keeps only its `p2` channel; m2's only device submap is
emptied and dropped. -/
theorem c5_witness :
    profile_deleted "p1" [c5Mode1, c5Mode2] =
      some [cleanse_mode "p1" c5Mode1, cleanse_mode "p1" c5Mode2] := by
  obtain ⟨result, heq, _, _, _, hres⟩ :=
    c5_profile_deleted_correct "p1" [c5Mode1, c5Mode2]
      (by decide) (by decide) (by decide)
  rw [heq, hres]
  rfl

/-! ### C4 support: association-list lemmas -/

theorem astore_astore {α : Type} (l : List (String × α)) (k : String)
    (v w : α) : astore (astore l k v) k w = astore l k w := by
  induction l with
  | nil => simp [astore]
  | cons hd tl ih =>
    obtain ⟨k0, v0⟩ := hd
    by_cases h : k0 = k
    · subst h
      simp [astore]
    · simp [astore, h, ih]

theorem astore_eq_self {α : Type} (l : List (String × α)) (k : String)
    (v : α) (h : alookup l k = some v) : astore l k v = l := by
  induction l with
  | nil => simp [alookup] at h
  | cons hd tl ih =>
    obtain ⟨k0, v0⟩ := hd
    by_cases h0 : k0 = k
    · subst h0
      rw [alookup_cons_self] at h
      injection h with h
      rw [astore_cons_self, h]
    · rw [alookup_cons_ne _ _ _ _ h0] at h
      rw [astore_cons_ne _ _ _ _ _ h0, ih h]

theorem aerase_of_not_mem {α : Type} (l : List (String × α)) (k : String)
    (h : k ∉ akeys l) : aerase l k = l := by
  induction l with
  | nil => rfl
  | cons hd tl ih =>
    obtain ⟨k0, v0⟩ := hd
    simp only [akeys, List.map_cons, List.mem_cons] at h
    push_neg at h
    rw [aerase_cons_ne _ _ _ _ (fun hh => h.1 hh.symm),
      ih (by simpa [akeys] using h.2)]

theorem alookup_aerase_ne {α : Type} (l : List (String × α)) (k ch : String)
    (h : ¬ ch = k) : alookup (aerase l k) ch = alookup l ch := by
  induction l with
  | nil => rfl
  | cons hd tl ih =>
    obtain ⟨k0, v0⟩ := hd
    by_cases h0 : k0 = k
    · subst h0
      rw [aerase_cons_self, alookup_cons_ne _ _ _ _ (fun hh => h hh.symm)]
    · rw [aerase_cons_ne _ _ _ _ h0]
      by_cases h1 : k0 = ch
      · subst h1
        rw [alookup_cons_self, alookup_cons_self]
      · rw [alookup_cons_ne _ _ _ _ h1, alookup_cons_ne _ _ _ _ h1, ih]

theorem alookup_aerase_self {α : Type} (l : List (String × α)) (k : String)
    (hnd : (akeys l).Nodup) : alookup (aerase l k) k = none := by
  induction l with
  | nil => rfl
  | cons hd tl ih =>
    obtain ⟨k0, v0⟩ := hd
    simp only [akeys, List.map_cons, List.nodup_cons] at hnd
    by_cases h0 : k0 = k
    · subst h0
      rw [aerase_cons_self]
      apply alookup_eq_none_of_not_mem
      exact fun hm => hnd.1 hm
    · rw [aerase_cons_ne _ _ _ _ h0, alookup_cons_ne _ _ _ _ h0]
      exact ih hnd.2

theorem akeys_aerase_sublist {α : Type} (l : List (String × α)) (k : String) :
    (akeys (aerase l k)).Sublist (akeys l) := by
  induction l with
  | nil => simp [aerase]
  | cons hd tl ih =>
    obtain ⟨k0, v0⟩ := hd
    by_cases h0 : k0 = k
    · subst h0
      rw [aerase_cons_self]
      exact (List.sublist_cons_self ..)
    · rw [aerase_cons_ne _ _ _ _ h0]
      exact List.Sublist.cons₂ _ ih

theorem nodup_aerase {α : Type} (l : List (String × α)) (k : String)
    (hnd : (akeys l).Nodup) : (akeys (aerase l k)).Nodup :=
  hnd.sublist (akeys_aerase_sublist l k)

theorem mem_akeys_astore {α : Type} (l : List (String × α)) (k j : String)
    (v : α) (h : j ∈ akeys (astore l k v)) : j ∈ akeys l ∨ j = k := by
  induction l with
  | nil =>
    simp only [astore, akeys, List.map_cons, List.map_nil,
      List.mem_singleton] at h
    exact Or.inr h
  | cons hd tl ih =>
    obtain ⟨k0, v0⟩ := hd
    by_cases h0 : k0 = k
    · subst h0
      rw [astore_cons_self] at h
      simp only [akeys, List.map_cons, List.mem_cons] at h
      rcases h with h | h
      · exact Or.inr h
      · exact Or.inl (List.mem_cons_of_mem _ h)
    · rw [astore_cons_ne _ _ _ _ _ h0] at h
      simp only [akeys, List.map_cons, List.mem_cons] at h ⊢
      rcases h with h | h
      · exact Or.inl (Or.inl h)
      · rcases ih h with h' | h'
        · exact Or.inl (Or.inr h')
        · exact Or.inr h'

theorem nodup_astore {α : Type} (l : List (String × α)) (k : String) (v : α)
    (hnd : (akeys l).Nodup) : (akeys (astore l k v)).Nodup := by
  induction l with
  | nil => simp [astore, akeys]
  | cons hd tl ih =>
    obtain ⟨k0, v0⟩ := hd
    simp only [akeys, List.map_cons, List.nodup_cons] at hnd
    by_cases h0 : k0 = k
    · subst h0
      rw [astore_cons_self]
      simp only [akeys, List.map_cons, List.nodup_cons]
      exact hnd
    · rw [astore_cons_ne _ _ _ _ _ h0]
      simp only [akeys, List.map_cons, List.nodup_cons]
      refine ⟨?_, ih hnd.2⟩
      intro hm
      rcases mem_akeys_astore tl k k0 v (by simpa [akeys] using hm) with h' | h'
      · exact hnd.1 (by simpa [akeys] using h')
      · exact h0 h'

theorem akeys_mem_iff_isSome {α : Type} (l : List (String × α)) (k : String) :
    k ∈ akeys l ↔ (alookup l k).isSome = true := by
  induction l with
  | nil => simp [akeys, alookup]
  | cons hd tl ih =>
    obtain ⟨k0, v0⟩ := hd
    by_cases h0 : k0 = k
    · subst h0
      simp [akeys, alookup_cons_self]
    · rw [alookup_cons_ne _ _ _ _ h0]
      simp only [akeys, List.map_cons, List.mem_cons]
      rw [← ih]
      constructor
      · rintro (h | h)
        · exact absurd h.symm h0
        · exact h
      · exact Or.inr

theorem eq_nil_of_alookup_none {α : Type} (l : List (String × α))
    (h : ∀ k, alookup l k = none) : l = [] := by
  cases l with
  | nil => rfl
  | cons hd tl =>
    obtain ⟨k0, v0⟩ := hd
    have := h k0
    rw [alookup_cons_self] at this
    exact Option.noConfusion this

/-! ### C4 support: `saved_map` lemmas -/

theorem saved_map_fold_lookup (l : List Setting) (ch : String) :
    ∀ (acc : List (String × Setting)),
    alookup (l.foldl (fun a s => astore a s.channel_name s) acc) ch =
      match alookup (saved_map l) ch with
      | some v => some v
      | none => alookup acc ch := by
  induction l with
  | nil => intro acc; simp [saved_map, alookup]
  | cons s0 rest ih =>
    intro acc
    show alookup (rest.foldl _ (astore acc s0.channel_name s0)) ch = _
    rw [ih (astore acc s0.channel_name s0)]
    have hsm : saved_map (s0 :: rest) =
        rest.foldl (fun a s => astore a s.channel_name s)
          (astore [] s0.channel_name s0) := rfl
    rw [hsm, ih (astore [] s0.channel_name s0)]
    cases hr : alookup (saved_map rest) ch with
    | some v => rfl
    | none =>
      by_cases hch : s0.channel_name = ch
      · subst hch
        rw [alookup_astore_self, alookup_astore_self]
      · rw [alookup_astore_ne _ _ _ _ (fun hh => hch hh.symm),
          alookup_astore_ne _ _ _ _ (fun hh => hch hh.symm)]
        simp [alookup]

theorem saved_map_lookup (e : Entry) (ch : String)
    (hnd : (akeys e).Nodup) :
    alookup (saved_map (get_entry_settings e)) ch =
      (alookup e ch).map (item_to_setting ch) := by
  induction e with
  | nil => simp [saved_map, get_entry_settings, alookup]
  | cons hd tl ih =>
    obtain ⟨k0, it0⟩ := hd
    simp only [akeys, List.map_cons, List.nodup_cons] at hnd
    have hstep : saved_map (get_entry_settings ((k0, it0) :: tl)) =
        (get_entry_settings tl).foldl (fun a s => astore a s.channel_name s)
          (astore [] (item_to_setting k0 it0).channel_name
            (item_to_setting k0 it0)) := rfl
    rw [hstep, saved_map_fold_lookup]
    have hname : (item_to_setting k0 it0).channel_name = k0 := rfl
    rw [ih hnd.2]
    by_cases hch : k0 = ch
    · subst hch
      have : alookup tl k0 = none := by
        apply alookup_eq_none_of_not_mem
        exact fun hm => hnd.1 hm
      rw [this, alookup_cons_self]
      simp only [Option.map_none']
      rw [hname, alookup_astore_self]
      rfl
    · rw [alookup_cons_ne _ _ _ _ hch]
      cases ht : alookup tl ch with
      | some it => rfl
      | none =>
        simp only [Option.map_none']
        rw [hname, alookup_astore_ne _ _ _ _ (fun hh => hch hh.symm)]
        simp [alookup]

/-! ### C4 support: `set_entry` lemmas -/

theorem apply_to_item_idem (s : Setting) (it : ChannelItem) :
    apply_to_item s (apply_to_item s it) = apply_to_item s it := by
  rcases s with ⟨ch, sf, sp, ts, li, lc, pm, rd, pu⟩
  cases pm <;> cases sf <;> cases sp <;> cases ts <;> cases li <;>
    cases lc <;> cases pu <;> rfl

theorem set_entry_reset_general (s : Setting) (e : Entry)
    (h : s.reset_to_default.getD false = true) :
    set_entry s e = aerase e s.channel_name := by
  simp [set_entry, h]

theorem set_entry_reset (ch : String) (e : Entry) :
    set_entry (reset_setting ch) e = aerase e ch :=
  set_entry_reset_general (reset_setting ch) e rfl

theorem set_entry_nonreset (s : Setting) (e : Entry)
    (h : s.reset_to_default.getD false = false) :
    set_entry s e =
      (if sync_clearing s then
        aerase (astore e s.channel_name
          (apply_to_item s ((alookup e s.channel_name).getD {}))) "sync"
      else astore e s.channel_name
        (apply_to_item s ((alookup e s.channel_name).getD {}))) := by
  simp only [set_entry, h, Bool.false_eq_true, if_false, sync_clearing,
    Bool.not_false, Bool.true_and]

theorem sync_clearing_channel_ne (s : Setting)
    (h : sync_clearing s = true) : ¬ s.channel_name = "sync" := by
  simp only [sync_clearing, Bool.and_eq_true, Bool.not_eq_true',
    decide_eq_false_iff_not] at h
  exact h.2

theorem sync_clearing_reset_false (s : Setting)
    (h : sync_clearing s = true) : s.reset_to_default.getD false = false := by
  simp only [sync_clearing, Bool.and_eq_true, Bool.not_eq_true'] at h
  exact h.1.1.1.1

theorem nodup_set_entry (s : Setting) (e : Entry)
    (hnd : (akeys e).Nodup) : (akeys (set_entry s e)).Nodup := by
  cases hrd : s.reset_to_default.getD false with
  | true =>
    rw [set_entry_reset_general s e hrd]
    exact nodup_aerase _ _ hnd
  | false =>
    rw [set_entry_nonreset s e hrd]
    by_cases hsc : sync_clearing s = true
    · rw [if_pos hsc]
      exact nodup_aerase _ _ (nodup_astore _ _ _ hnd)
    · rw [if_neg hsc]
      exact nodup_astore _ _ _ hnd

theorem set_entry_lookup_ne (s : Setting) (e : Entry) (ch₀ : String)
    (hch : ¬ s.channel_name = ch₀)
    (hsync : ¬ ch₀ = "sync" ∨ alookup e ch₀ = none
      ∨ sync_clearing s = false) :
    alookup (set_entry s e) ch₀ = alookup e ch₀ := by
  cases hrd : s.reset_to_default.getD false with
  | true =>
    rw [set_entry_reset_general s e hrd]
    exact alookup_aerase_ne _ _ _ (fun hh => hch hh.symm)
  | false =>
    rw [set_entry_nonreset s e hrd]
    by_cases hsc : sync_clearing s = true
    · rw [if_pos hsc]
      by_cases h0 : ch₀ = "sync"
      · subst h0
        rcases hsync with h | h | h
        · exact absurd rfl h
        · have h1 : alookup (astore e s.channel_name
              (apply_to_item s ((alookup e s.channel_name).getD {})))
                "sync" = none := by
            rw [alookup_astore_ne _ _ _ _
              (fun hh => sync_clearing_channel_ne s hsc hh.symm)]
            exact h
          rw [aerase_of_not_mem _ _
            (fun hm => by
              have hs := (akeys_mem_iff_isSome _ _).mp hm
              rw [h1] at hs
              simp at hs), h1, h]
        · exact absurd hsc (by simp [h])
      · rw [alookup_aerase_ne _ _ _ h0,
          alookup_astore_ne _ _ _ _ (fun hh => hch hh.symm)]
    · rw [if_neg hsc]
      exact alookup_astore_ne _ _ _ _ (fun hh => hch hh.symm)

theorem set_entry_lookup_self_reset (s : Setting) (e : Entry)
    (hnd : (akeys e).Nodup) (hrd : s.reset_to_default.getD false = true) :
    alookup (set_entry s e) s.channel_name = none := by
  rw [set_entry_reset_general s e hrd]
  exact alookup_aerase_self _ _ hnd

theorem set_entry_lookup_self (s : Setting) (e : Entry)
    (hrd : s.reset_to_default.getD false = false) :
    alookup (set_entry s e) s.channel_name =
      some (apply_to_item s ((alookup e s.channel_name).getD {})) := by
  rw [set_entry_nonreset s e hrd]
  by_cases hsc : sync_clearing s = true
  · rw [if_pos hsc,
      alookup_aerase_ne _ _ _ (sync_clearing_channel_ne s hsc),
      alookup_astore_self]
  · rw [if_neg hsc, alookup_astore_self]

/-! ### C4 support: fold lemmas for the reset and apply phases -/

theorem entry_op_effect_reset (e : Entry) (d ch : String) :
    entry_op_effect e (.reset d ch) = aerase e ch :=
  set_entry_reset ch e

theorem nodup_entry_op_effect (e : Entry) (op : ModeOp)
    (hnd : (akeys e).Nodup) : (akeys (entry_op_effect e op)).Nodup := by
  cases op with
  | reset d ch => exact nodup_set_entry _ _ hnd
  | apply d s => exact nodup_set_entry _ _ hnd

theorem nodup_fold_entry_ops (ops : List ModeOp) :
    ∀ (e : Entry), (akeys e).Nodup →
    (akeys (ops.foldl entry_op_effect e)).Nodup := by
  induction ops with
  | nil => intro e hnd; exact hnd
  | cons op rest ih =>
    intro e hnd
    exact ih _ (nodup_entry_op_effect e op hnd)

theorem fold_entry_id (e : Entry) (ops : List ModeOp)
    (h : ∀ op ∈ ops, entry_op_effect e op = e) :
    ops.foldl entry_op_effect e = e := by
  induction ops with
  | nil => rfl
  | cons op rest ih =>
    show rest.foldl entry_op_effect (entry_op_effect e op) = e
    rw [h op (List.mem_cons_self ..)]
    exact ih (fun op' hop' => h op' (List.mem_cons_of_mem _ hop'))

theorem fold_op_id (st : DevSettings) (ops : List ModeOp)
    (h : ∀ op ∈ ops, op_effect st op = st) :
    run_ops st ops = st := by
  induction ops with
  | nil => rfl
  | cons op rest ih =>
    show rest.foldl op_effect (op_effect st op) = st
    rw [h op (List.mem_cons_self ..)]
    exact ih (fun op' hop' => h op' (List.mem_cons_of_mem _ hop'))

theorem fold_reset_filter_lookup (d : String) (pred : String → Bool) :
    ∀ (ks : List String) (e : Entry), (akeys e).Nodup → ∀ (ch₀ : String),
    alookup ((ks.filterMap (fun ch =>
        if pred ch then none else some (ModeOp.reset d ch))).foldl
      entry_op_effect e) ch₀ =
      if ch₀ ∈ ks ∧ pred ch₀ = false then none else alookup e ch₀ := by
  intro ks
  induction ks with
  | nil => intro e hnd ch₀; simp
  | cons k ks' ih =>
    intro e hnd ch₀
    by_cases hp : pred k = true
    · rw [List.filterMap_cons, hp, if_pos rfl, ih e hnd ch₀]
      have hiff : (ch₀ ∈ ks' ∧ pred ch₀ = false)
          ↔ (ch₀ ∈ k :: ks' ∧ pred ch₀ = false) := by
        constructor
        · rintro ⟨hm, hp0⟩
          exact ⟨List.mem_cons_of_mem _ hm, hp0⟩
        · rintro ⟨hm, hp0⟩
          rcases List.mem_cons.mp hm with rfl | hm'
          · rw [hp] at hp0
            exact absurd hp0 (by simp)
          · exact ⟨hm', hp0⟩
      rw [if_congr hiff rfl rfl]
    · rw [Bool.not_eq_true] at hp
      rw [List.filterMap_cons, hp]
      show alookup ((ks'.filterMap _).foldl entry_op_effect
        (entry_op_effect e (ModeOp.reset d k))) ch₀ = _
      rw [entry_op_effect_reset,
        ih (aerase e k) (nodup_aerase _ _ hnd) ch₀]
      by_cases h0 : ch₀ = k
      · subst h0
        rw [alookup_aerase_self _ _ hnd, ite_self,
          if_pos ⟨List.mem_cons_self .., hp⟩]
      · rw [alookup_aerase_ne _ _ _ h0]
        have hiff : (ch₀ ∈ ks' ∧ pred ch₀ = false)
            ↔ (ch₀ ∈ k :: ks' ∧ pred ch₀ = false) := by
          constructor
          · rintro ⟨hm, hp0⟩
            exact ⟨List.mem_cons_of_mem _ hm, hp0⟩
          · rintro ⟨hm, hp0⟩
            rcases List.mem_cons.mp hm with rfl | hm'
            · exact absurd rfl h0
            · exact ⟨hm', hp0⟩
        rw [if_congr hiff rfl rfl]

theorem phaseA_lookup (e : Entry) (md : List (String × Setting))
    (d : String) (hnd : (akeys e).Nodup) (ch₀ : String) :
    alookup ((reset_unset_ops (saved_map (get_entry_settings e)) md d).foldl
      entry_op_effect e) ch₀ =
      if amem md ch₀ then alookup e ch₀ else none := by
  show alookup (((akeys (saved_map (get_entry_settings e))).filterMap
    (fun ch => if amem md ch then none
      else some (ModeOp.reset d ch))).foldl entry_op_effect e) ch₀ = _
  rw [fold_reset_filter_lookup d (amem md) _ e hnd ch₀]
  by_cases hm : amem md ch₀ = true
  · rw [hm]
    simp
  · rw [Bool.not_eq_true] at hm
    rw [hm]
    simp only [Bool.false_eq_true, if_false]
    by_cases hA : ch₀ ∈ akeys (saved_map (get_entry_settings e))
    · rw [if_pos ⟨hA, trivial⟩]
    · rw [if_neg (fun hc => hA hc.1)]
      have h1 : alookup (saved_map (get_entry_settings e)) ch₀ = none :=
        alookup_eq_none_of_not_mem _ _ hA
      rw [saved_map_lookup e ch₀ hnd] at h1
      exact Option.map_eq_none'.mp h1

/-! ### C4 support: the apply phase characterized channel by channel -/

theorem phaseB_lookup (d : String) (sv : List (String × Setting)) :
    ∀ (md : List (String × Setting)) (e : Entry),
    (∀ p ∈ md, (p.2 : Setting).channel_name = p.1) →
    (akeys md).Nodup →
    (akeys e).Nodup →
    ((∃ p ∈ md, sync_clearing p.2 = true) →
      alookup e "sync" = none ∧ "sync" ∉ akeys md) →
    ((akeys ((apply_mode_ops sv md d).foldl entry_op_effect e)).Nodup
    ∧ (∀ ch₀ s₀, alookup md ch₀ = some s₀ →
        alookup ((apply_mode_ops sv md d).foldl entry_op_effect e) ch₀ =
          if alookup sv ch₀ = some s₀ then alookup e ch₀
          else if s₀.reset_to_default.getD false then none
          else some (apply_to_item s₀ ((alookup e ch₀).getD {})))
    ∧ (∀ ch₀, alookup md ch₀ = none →
        alookup ((apply_mode_ops sv md d).foldl entry_op_effect e) ch₀ =
          alookup e ch₀)) := by
  intro md
  induction md with
  | nil =>
    intro e _ _ hE _
    refine ⟨hE, fun ch₀ s₀ hm => ?_, fun ch₀ _ => rfl⟩
    exact Option.noConfusion hm
  | cons p md' ih =>
    obtain ⟨ch, s⟩ := p
    intro e hW1 hndmd hE hsync
    simp only [akeys, List.map_cons, List.nodup_cons] at hndmd
    have hndmd' : (akeys md').Nodup := hndmd.2
    have hnotmd' : ch ∉ akeys md' := fun hm => hndmd.1 (by simpa [akeys] using hm)
    have hhd : s.channel_name = ch := hW1 (ch, s) (List.mem_cons_self ..)
    have hW1' : ∀ p ∈ md', (p.2 : Setting).channel_name = p.1 :=
      fun p hp => hW1 p (List.mem_cons_of_mem _ hp)
    by_cases hskip : alookup sv ch = some s
    · have hops : apply_mode_ops sv ((ch, s) :: md') d =
          apply_mode_ops sv md' d := by
        simp [apply_mode_ops, List.filterMap_cons, hskip]
      have hsync' : (∃ p ∈ md', sync_clearing p.2 = true) →
          alookup e "sync" = none ∧ "sync" ∉ akeys md' := by
        intro hex
        obtain ⟨p, hp, hclp⟩ := hex
        have htop := hsync ⟨p, List.mem_cons_of_mem _ hp, hclp⟩
        exact ⟨htop.1, fun hm => htop.2 (List.mem_cons_of_mem _ hm)⟩
      obtain ⟨ih1, ih2, ih3⟩ := ih e hW1' hndmd' hE hsync'
      rw [hops]
      refine ⟨ih1, fun ch₀ s₀ hm => ?_, fun ch₀ hm => ?_⟩
      · by_cases h0 : ch = ch₀
        · subst h0
          rw [alookup_cons_self] at hm
          injection hm with hm
          subst hm
          rw [ih3 ch (alookup_eq_none_of_not_mem _ _ hnotmd'), if_pos hskip]
        · rw [alookup_cons_ne _ _ _ _ h0] at hm
          exact ih2 ch₀ s₀ hm
      · by_cases h0 : ch = ch₀
        · subst h0
          rw [alookup_cons_self] at hm
          exact Option.noConfusion hm
        · rw [alookup_cons_ne _ _ _ _ h0] at hm
          exact ih3 ch₀ hm
    · have hops : apply_mode_ops sv ((ch, s) :: md') d =
          ModeOp.apply d s :: apply_mode_ops sv md' d := by
        simp [apply_mode_ops, List.filterMap_cons, hskip]
      have hbase : ∀ ch₀, ¬ ch = ch₀ →
          alookup (set_entry s e) ch₀ = alookup e ch₀ := by
        intro ch₀ h0
        apply set_entry_lookup_ne s e ch₀ (fun hh => h0 (hhd.symm.trans hh))
        by_cases hsy : ch₀ = "sync"
        · subst hsy
          by_cases hcl : sync_clearing s = true
          · have htop := hsync ⟨(ch, s), List.mem_cons_self .., hcl⟩
            exact Or.inr (Or.inl htop.1)
          · rw [Bool.not_eq_true] at hcl
            exact Or.inr (Or.inr hcl)
        · exact Or.inl hsy
      have hE' : (akeys (set_entry s e)).Nodup := nodup_set_entry s e hE
      have hsync' : (∃ p ∈ md', sync_clearing p.2 = true) →
          alookup (set_entry s e) "sync" = none ∧ "sync" ∉ akeys md' := by
        intro hex
        obtain ⟨p, hp, hclp⟩ := hex
        have htop := hsync ⟨p, List.mem_cons_of_mem _ hp, hclp⟩
        have hchsy : ¬ ch = "sync" :=
          fun hh => htop.2 (by rw [← hh]; exact List.mem_cons_self ..)
        refine ⟨?_, fun hm => htop.2 (List.mem_cons_of_mem _ hm)⟩
        rw [set_entry_lookup_ne s e "sync"
          (fun hh => hchsy (hhd.symm.trans hh)) (Or.inr (Or.inl htop.1))]
        exact htop.1
      obtain ⟨ih1, ih2, ih3⟩ := ih (set_entry s e) hW1' hndmd' hE' hsync'
      rw [hops, List.foldl_cons]
      have hee : entry_op_effect e (ModeOp.apply d s) = set_entry s e := rfl
      rw [hee]
      refine ⟨ih1, fun ch₀ s₀ hm => ?_, fun ch₀ hm => ?_⟩
      · by_cases h0 : ch = ch₀
        · subst h0
          rw [alookup_cons_self] at hm
          injection hm with hm
          subst hm
          rw [ih3 ch (alookup_eq_none_of_not_mem _ _ hnotmd'), if_neg hskip]
          cases hr : s.reset_to_default.getD false with
          | true =>
            rw [if_pos rfl, ← hhd]
            exact set_entry_lookup_self_reset s e hE hr
          | false =>
            rw [if_neg (by simp), ← hhd]
            exact set_entry_lookup_self s e hr
        · rw [alookup_cons_ne _ _ _ _ h0] at hm
          rw [ih2 ch₀ s₀ hm, hbase ch₀ h0]
      · by_cases h0 : ch = ch₀
        · subst h0
          rw [alookup_cons_self] at hm
          exact Option.noConfusion hm
        · rw [alookup_cons_ne _ _ _ _ h0] at hm
          rw [ih3 ch₀ hm, hbase ch₀ h0]

/-! ### C4 support: one device processed once, then twice -/

theorem device_once_lookup (e0 : Entry) (md : List (String × Setting))
    (d : String) (e1 : Entry)
    (hW1 : ∀ p ∈ md, (p.2 : Setting).channel_name = p.1)
    (hndmd : (akeys md).Nodup)
    (hW3 : (∃ q ∈ md, sync_clearing q.2 = true) → "sync" ∉ akeys md)
    (hE : (akeys e0).Nodup)
    (he1 : e1 = (reset_unset_ops (saved_map (get_entry_settings e0)) md d
      ++ apply_mode_ops (saved_map (get_entry_settings e0)) md d).foldl
      entry_op_effect e0) :
    (akeys e1).Nodup
    ∧ (∀ ch₀ s₀, alookup md ch₀ = some s₀ →
        alookup e1 ch₀ =
          if alookup (saved_map (get_entry_settings e0)) ch₀ = some s₀
          then alookup e0 ch₀
          else if s₀.reset_to_default.getD false then none
          else some (apply_to_item s₀ ((alookup e0 ch₀).getD {})))
    ∧ (∀ ch₀, alookup md ch₀ = none → alookup e1 ch₀ = none) := by
  subst he1
  rw [List.foldl_append]
  have hAnodup : (akeys ((reset_unset_ops (saved_map (get_entry_settings e0))
      md d).foldl entry_op_effect e0)).Nodup :=
    nodup_fold_entry_ops _ _ hE
  have hAlookup : ∀ ch₀,
      alookup ((reset_unset_ops (saved_map (get_entry_settings e0))
        md d).foldl entry_op_effect e0) ch₀ =
      if amem md ch₀ then alookup e0 ch₀ else none :=
    fun ch₀ => phaseA_lookup e0 md d hE ch₀
  have hsyncA : (∃ p ∈ md, sync_clearing p.2 = true) →
      alookup ((reset_unset_ops (saved_map (get_entry_settings e0))
        md d).foldl entry_op_effect e0) "sync" = none
      ∧ "sync" ∉ akeys md := by
    intro hex
    have hns := hW3 hex
    have hmem : amem md "sync" = false := by
      simp [amem, alookup_eq_none_of_not_mem md "sync" hns]
    refine ⟨?_, hns⟩
    rw [hAlookup "sync", hmem]
    simp
  obtain ⟨h1, h2, h3⟩ := phaseB_lookup d (saved_map (get_entry_settings e0))
    md _ hW1 hndmd hAnodup hsyncA
  refine ⟨h1, fun ch₀ s₀ hm => ?_, fun ch₀ hm => ?_⟩
  · rw [h2 ch₀ s₀ hm]
    have hmemt : amem md ch₀ = true := by simp [amem, hm]
    rw [hAlookup ch₀, hmemt]
    simp
  · rw [h3 ch₀ hm, hAlookup ch₀]
    have hmemf : amem md ch₀ = false := by simp [amem, hm]
    rw [hmemf]
    simp

theorem device_ops_twice_id (md : List (String × Setting)) (d : String)
    (e0 e1 : Entry)
    (hW1 : ∀ p ∈ md, (p.2 : Setting).channel_name = p.1)
    (hndmd : (akeys md).Nodup)
    (hW3 : (∃ q ∈ md, sync_clearing q.2 = true) → "sync" ∉ akeys md)
    (hE : (akeys e0).Nodup)
    (he1 : e1 = (reset_unset_ops (saved_map (get_entry_settings e0)) md d
      ++ apply_mode_ops (saved_map (get_entry_settings e0)) md d).foldl
      entry_op_effect e0) :
    ∀ op ∈ reset_unset_ops (saved_map (get_entry_settings e1)) md d
        ++ apply_mode_ops (saved_map (get_entry_settings e1)) md d,
      entry_op_effect e1 op = e1 := by
  obtain ⟨hnd1, h2, h3⟩ :=
    device_once_lookup e0 md d e1 hW1 hndmd hW3 hE he1
  intro op hop
  rcases List.mem_append.mp hop with hop | hop
  · exfalso
    simp only [reset_unset_ops, List.mem_filterMap] at hop
    obtain ⟨ch, hch, hif⟩ := hop
    by_cases hmem : amem md ch = true
    · rw [if_pos hmem] at hif
      exact Option.noConfusion hif
    · rw [Bool.not_eq_true] at hmem
      have hm0 : alookup md ch = none := by
        cases hmd : alookup md ch with
        | none => rfl
        | some s =>
          rw [amem, hmd] at hmem
          exact Bool.noConfusion hmem
      have h1n : alookup e1 ch = none := h3 ch hm0
      have hks := (akeys_mem_iff_isSome _ _).mp hch
      rw [saved_map_lookup e1 ch hnd1, h1n] at hks
      simp at hks
  · simp only [apply_mode_ops, List.mem_filterMap] at hop
    obtain ⟨p, hp, hif⟩ := hop
    obtain ⟨ch, s⟩ := p
    by_cases hsk1 : alookup (saved_map (get_entry_settings e1)) ch = some s
    · rw [if_pos hsk1] at hif
      exact Option.noConfusion hif
    · rw [if_neg hsk1] at hif
      injection hif with hif
      subst hif
      have hhd : (s : Setting).channel_name = ch := hW1 (ch, s) hp
      have hmmd : alookup md ch = some s :=
        alookup_eq_some_of_mem md ch s hndmd hp
      have hent := h2 ch s hmmd
      by_cases hsk0 : alookup (saved_map (get_entry_settings e0)) ch = some s
      · exfalso
        rw [if_pos hsk0] at hent
        apply hsk1
        rw [saved_map_lookup e1 ch hnd1, hent,
          ← saved_map_lookup e0 ch hE]
        exact hsk0
      · rw [if_neg hsk0] at hent
        show set_entry s e1 = e1
        cases hr : s.reset_to_default.getD false with
        | true =>
          rw [hr] at hent
          simp only [if_true] at hent
          rw [set_entry_reset_general s e1 hr, hhd]
          apply aerase_of_not_mem
          intro hm
          have hmem := (akeys_mem_iff_isSome _ _).mp hm
          rw [hent] at hmem
          simp at hmem
        | false =>
          rw [hr] at hent
          simp only [Bool.false_eq_true, if_false] at hent
          rw [set_entry_nonreset s e1 hr, hhd, hent, Option.getD_some,
            apply_to_item_idem, astore_eq_self e1 ch _ hent]
          by_cases hcl : sync_clearing s = true
          · rw [if_pos hcl]
            apply aerase_of_not_mem
            intro hm
            have hns := hW3 ⟨(ch, s), hp, hcl⟩
            have h1n := h3 "sync" (alookup_eq_none_of_not_mem _ _ hns)
            have hmem := (akeys_mem_iff_isSome _ _).mp hm
            rw [h1n] at hmem
            simp at hmem
          · rw [if_neg hcl]

theorem reset_device_ops_as_filterMap (e0 : Entry) (d : String) :
    reset_device_ops e0 d = (akeys e0).filterMap (fun ch =>
      if (fun _ : String => false) ch then none
      else some (ModeOp.reset d ch)) := by
  induction e0 with
  | nil => rfl
  | cons hd tl ih =>
    obtain ⟨k0, it0⟩ := hd
    show ModeOp.reset d (item_to_setting k0 it0).channel_name ::
      reset_device_ops tl d = ModeOp.reset d k0 :: _
    rw [ih]
    rfl

theorem reset_device_run_nil (e0 : Entry) (d : String)
    (hE : (akeys e0).Nodup) :
    (reset_device_ops e0 d).foldl entry_op_effect e0 = [] := by
  apply eq_nil_of_alookup_none
  intro ch₀
  rw [reset_device_ops_as_filterMap,
    fold_reset_filter_lookup d _ _ e0 hE ch₀]
  by_cases hA : ch₀ ∈ akeys e0
  · rw [if_pos ⟨hA, rfl⟩]
  · rw [if_neg (fun hc => hA hc.1)]
    exact alookup_eq_none_of_not_mem _ _ hA

/-! ### C4 support: lifting from one device's table to the whole store -/

theorem op_effect_as_entry (st : DevSettings) (op : ModeOp) :
    op_effect st op =
      astore st op.device
        (entry_op_effect ((alookup st op.device).getD []) op) := by
  cases op with
  | reset d ch => rfl
  | apply d s => rfl

theorem run_ops_on_device (d : String) : ∀ (ops : List ModeOp)
    (st : DevSettings), (∀ op ∈ ops, op.device = d) → ¬ ops = [] →
    run_ops st ops =
      astore st d (ops.foldl entry_op_effect ((alookup st d).getD [])) := by
  intro ops
  induction ops with
  | nil => intro st _ h; exact absurd rfl h
  | cons op rest ih =>
    intro st hd _
    have hop : op.device = d := hd op (List.mem_cons_self ..)
    show run_ops (op_effect st op) rest = _
    rw [op_effect_as_entry st op, hop]
    by_cases hre : rest = []
    · subst hre
      rfl
    · rw [ih (astore st d (entry_op_effect ((alookup st d).getD []) op))
        (fun o ho => hd o (List.mem_cons_of_mem _ ho)) hre,
        alookup_astore_self, astore_astore, Option.getD_some]
      rfl

theorem run_ops_frame : ∀ (ops : List ModeOp) (st : DevSettings)
    (d' : String), (∀ op ∈ ops, ¬ op.device = d') →
    alookup (run_ops st ops) d' = alookup st d' := by
  intro ops
  induction ops with
  | nil => intro st d' _; rfl
  | cons op rest ih =>
    intro st d' hd
    show alookup (run_ops (op_effect st op) rest) d' = _
    rw [ih (op_effect st op) d'
      (fun o ho => hd o (List.mem_cons_of_mem _ ho)),
      op_effect_as_entry st op,
      alookup_astore_ne _ _ _ _
        (fun hh => hd op (List.mem_cons_self ..) hh.symm)]

theorem device_ops_eq_none (st : DevSettings) (mode : Mode) (d : String)
    (hmd : alookup mode.all_device_settings d = none) :
    device_ops st mode d = reset_device_ops ((alookup st d).getD []) d := by
  simp only [device_ops, hmd]

theorem device_ops_eq_some (st : DevSettings) (mode : Mode) (d : String)
    (md : List (String × Setting))
    (hmd : alookup mode.all_device_settings d = some md) :
    device_ops st mode d =
      reset_unset_ops
        (saved_map (get_entry_settings ((alookup st d).getD []))) md d
      ++ apply_mode_ops
        (saved_map (get_entry_settings ((alookup st d).getD []))) md d := by
  simp only [device_ops, hmd]

theorem device_ops_device (st : DevSettings) (mode : Mode) (d : String) :
    ∀ op ∈ device_ops st mode d, op.device = d := by
  intro op hop
  cases hmd : alookup mode.all_device_settings d with
  | none =>
    rw [device_ops_eq_none st mode d hmd] at hop
    simp only [reset_device_ops, List.mem_map] at hop
    obtain ⟨s', _, hef⟩ := hop
    rw [← hef]
    rfl
  | some md =>
    rw [device_ops_eq_some st mode d md hmd] at hop
    rcases List.mem_append.mp hop with h | h
    · simp only [reset_unset_ops, List.mem_filterMap] at h
      obtain ⟨ch, _, hif⟩ := h
      split at hif
      · exact Option.noConfusion hif
      · injection hif with h'
        rw [← h']
        rfl
    · simp only [apply_mode_ops, List.mem_filterMap] at h
      obtain ⟨p, _, hif⟩ := h
      split at hif
      · exact Option.noConfusion hif
      · injection hif with h'
        rw [← h']
        rfl

theorem device_ops_congr (st st' : DevSettings) (mode : Mode) (d : String)
    (h : alookup st d = alookup st' d) :
    device_ops st mode d = device_ops st' mode d := by
  simp only [device_ops, h]

theorem run_pair_fst (mode : Mode) : ∀ (ds : List String)
    (st : DevSettings) (acc : List ModeOp),
    (ds.foldl (fun acc d =>
      (run_ops acc.1 (device_ops acc.1 mode d),
        acc.2 ++ device_ops acc.1 mode d)) (st, acc)).1 =
    ds.foldl (fun s d => run_ops s (device_ops s mode d)) st := by
  intro ds
  induction ds with
  | nil => intro st acc; rfl
  | cons d0 ds' ih =>
    intro st acc
    exact ih (run_ops st (device_ops st mode d0))
      (acc ++ device_ops st mode d0)

theorem activate_mode_run_fst (mode : Mode) (devices : List String)
    (st : DevSettings) :
    (activate_mode_run mode devices st).1 =
      devices.foldl (fun s d => run_ops s (device_ops s mode d)) st :=
  run_pair_fst mode devices st []

theorem fold_T_frame (mode : Mode) : ∀ (ds : List String)
    (st : DevSettings) (d : String), d ∉ ds →
    alookup (ds.foldl (fun s d' => run_ops s (device_ops s mode d')) st) d =
      alookup st d := by
  intro ds
  induction ds with
  | nil => intro st d _; rfl
  | cons d0 ds' ih =>
    intro st d hd
    have hne : ¬ d = d0 := fun hh => hd (hh ▸ List.mem_cons_self ..)
    have hnm : d ∉ ds' := fun hh => hd (List.mem_cons_of_mem _ hh)
    show alookup (ds'.foldl _ (run_ops st (device_ops st mode d0))) d = _
    rw [ih (run_ops st (device_ops st mode d0)) d hnm,
      run_ops_frame _ _ _
        (fun op hop => fun hh =>
          hne (hh.symm.trans (device_ops_device st mode d0 op hop)))]

theorem run1_lookup (mode : Mode) : ∀ (ds : List String), ds.Nodup →
    ∀ (st : DevSettings) (d : String), d ∈ ds →
    alookup (ds.foldl (fun s d' => run_ops s (device_ops s mode d')) st) d =
      (if (device_ops st mode d).isEmpty then alookup st d
       else some ((device_ops st mode d).foldl entry_op_effect
         ((alookup st d).getD []))) := by
  intro ds
  induction ds with
  | nil => intro _ st d hd; exact absurd hd (List.not_mem_nil _)
  | cons d0 ds' ih =>
    intro hnd st d hd
    rw [List.nodup_cons] at hnd
    show alookup (ds'.foldl _ (run_ops st (device_ops st mode d0))) d = _
    by_cases h0 : d = d0
    · subst h0
      rw [fold_T_frame mode ds' _ d hnd.1]
      by_cases hni : device_ops st mode d = []
      · rw [hni]
        show alookup (run_ops st []) d = _
        simp [run_ops]
      · rw [run_ops_on_device d _ st (device_ops_device st mode d) hni,
          alookup_astore_self,
          if_neg (fun he => hni (List.isEmpty_iff.mp he))]
    · have hd' : d ∈ ds' := by
        rcases List.mem_cons.mp hd with h | h
        · exact absurd h h0
        · exact h
      have hfr : alookup (run_ops st (device_ops st mode d0)) d =
          alookup st d :=
        run_ops_frame _ _ _
          (fun op hop => fun hh =>
            h0 (hh.symm.trans (device_ops_device st mode d0 op hop)))
      have hdo : device_ops (run_ops st (device_ops st mode d0)) mode d =
          device_ops st mode d :=
        device_ops_congr _ _ _ _ hfr
      rw [← hfr, ← hdo]
      exact ih hnd.2 _ d hd'

theorem run_pair_fixed (mode : Mode) : ∀ (ds : List String)
    (s1 : DevSettings),
    (∀ d ∈ ds, ∀ op ∈ device_ops s1 mode d, op_effect s1 op = s1) →
    ∀ (acc : List ModeOp),
    ((ds.foldl (fun acc d =>
      (run_ops acc.1 (device_ops acc.1 mode d),
        acc.2 ++ device_ops acc.1 mode d)) (s1, acc)).1 = s1
    ∧ ∀ op ∈ (ds.foldl (fun acc d =>
      (run_ops acc.1 (device_ops acc.1 mode d),
        acc.2 ++ device_ops acc.1 mode d)) (s1, acc)).2,
        op ∈ acc ∨ op_effect s1 op = s1) := by
  intro ds
  induction ds with
  | nil =>
    intro s1 _ acc
    exact ⟨rfl, fun op hop => Or.inl hop⟩
  | cons d0 ds' ih =>
    intro s1 h acc
    have hid : run_ops s1 (device_ops s1 mode d0) = s1 :=
      fold_op_id s1 _ (h d0 (List.mem_cons_self ..))
    have hstep : (d0 :: ds').foldl (fun acc d =>
        (run_ops acc.1 (device_ops acc.1 mode d),
          acc.2 ++ device_ops acc.1 mode d)) (s1, acc) =
        ds'.foldl (fun acc d =>
          (run_ops acc.1 (device_ops acc.1 mode d),
            acc.2 ++ device_ops acc.1 mode d))
          (s1, acc ++ device_ops s1 mode d0) := by
      show ds'.foldl _ (run_ops s1 (device_ops s1 mode d0),
        acc ++ device_ops s1 mode d0) = _
      rw [hid]
    rw [hstep]
    obtain ⟨h1, h2⟩ := ih s1 (fun d hd => h d (List.mem_cons_of_mem _ hd))
      (acc ++ device_ops s1 mode d0)
    refine ⟨h1, fun op hop => ?_⟩
    rcases h2 op hop with h' | h'
    · rcases List.mem_append.mp h' with h'' | h''
      · exact Or.inl h''
      · exact Or.inr (h d0 (List.mem_cons_self ..) op h'')
    · exact Or.inr h'

theorem run_fixed (mode : Mode) (ds : List String) (s1 : DevSettings)
    (h : ∀ d ∈ ds, ∀ op ∈ device_ops s1 mode d, op_effect s1 op = s1) :
    (activate_mode_run mode ds s1).1 = s1
    ∧ ∀ op ∈ (activate_mode_run mode ds s1).2, op_effect s1 op = s1 := by
  have hh := run_pair_fixed mode ds s1 h []
  refine ⟨hh.1, fun op hop => ?_⟩
  rcases hh.2 op hop with h' | h'
  · exact absurd h' (List.not_mem_nil _)
  · exact h'

theorem activate_run_idem (mode : Mode) (devices : List String)
    (st : DevSettings) (hwf : mode_wf mode)
    (hst : ∀ p ∈ st, (akeys (p.2 : Entry)).Nodup)
    (hdev : devices.Nodup) :
    (activate_mode_run mode devices
      (activate_mode_run mode devices st).1).1 =
      (activate_mode_run mode devices st).1
    ∧ ∀ op ∈ (activate_mode_run mode devices
        (activate_mode_run mode devices st).1).2,
      op_effect (activate_mode_run mode devices st).1 op =
        (activate_mode_run mode devices st).1 := by
  have hs1 : (activate_mode_run mode devices st).1 =
      devices.foldl (fun s d => run_ops s (device_ops s mode d)) st :=
    activate_mode_run_fst mode devices st
  have H : ∀ d ∈ devices,
      ∀ op ∈ device_ops (activate_mode_run mode devices st).1 mode d,
      op_effect (activate_mode_run mode devices st).1 op =
        (activate_mode_run mode devices st).1 := by
    intro d hd
    have hlook := run1_lookup mode devices hdev st d hd
    rw [← hs1] at hlook
    have hE0 : (akeys ((alookup st d).getD ([] : Entry))).Nodup := by
      cases hstd : alookup st d with
      | none => simp [akeys]
      | some e => exact hst (d, e) (mem_of_alookup_eq_some st d e hstd)
    by_cases hempty : device_ops st mode d = []
    · have hfr : alookup (activate_mode_run mode devices st).1 d =
          alookup st d := by
        rw [hlook, hempty]
        simp
      have hnil : device_ops (activate_mode_run mode devices st).1 mode d
          = [] := by
        rw [device_ops_congr _ st mode d hfr, hempty]
      intro op hop
      rw [hnil] at hop
      exact absurd hop (List.not_mem_nil _)
    · have hlook1 : alookup (activate_mode_run mode devices st).1 d =
          some ((device_ops st mode d).foldl entry_op_effect
            ((alookup st d).getD [])) := by
        rw [hlook, if_neg (fun he => hempty (List.isEmpty_iff.mp he))]
      cases hmd : alookup mode.all_device_settings d with
      | none =>
        have he1 : (device_ops st mode d).foldl entry_op_effect
            ((alookup st d).getD []) = [] := by
          rw [device_ops_eq_none st mode d hmd]
          exact reset_device_run_nil _ d hE0
        have hnil : device_ops (activate_mode_run mode devices st).1 mode d
            = [] := by
          rw [device_ops_eq_none _ mode d hmd, hlook1, he1]
          rfl
        intro op hop
        rw [hnil] at hop
        exact absurd hop (List.not_mem_nil _)
      | some md =>
        obtain ⟨hW1, hW2, hW3⟩ := hwf (d, md) (mem_of_alookup_eq_some _ _ _ hmd)
        intro op hop
        have hdev_op : op.device = d :=
          device_ops_device (activate_mode_run mode devices st).1 mode d op hop
        rw [device_ops_eq_some _ mode d md hmd, hlook1,
          Option.getD_some] at hop
        have hid := device_ops_twice_id md d ((alookup st d).getD []) _
          hW1 hW2 hW3 hE0
          (by rw [device_ops_eq_some st mode d md hmd]) op hop
        rw [op_effect_as_entry _ op, hdev_op, hlook1, Option.getD_some, hid]
        exact astore_eq_self _ d _ hlook1
  exact run_fixed mode devices (activate_mode_run mode devices st).1 H

/-! ### C4: `activate_mode` idempotence (corrected) -/

/-- C4 counterexample: activating `c4Mode` (which stores both a `sync`
lighting setting and a `led1` lighting setting for device `D1`) twice is
NOT the same as once: the first run's `led1` apply clears the stored
`sync` channel, so the second run re-applies `sync` — a repository apply
that changes the persisted settings.  Hence the claim fails as stated. -/
theorem c4_counterexample :
    activate_mode [c4Mode] [] ["D1"] "cm" [] = Except.ok c4Run1
    ∧ activate_mode [c4Mode] [] ["D1"] "cm" c4Run1.1 = Except.ok c4Run2
    ∧ ¬ c4Run2.1 = c4Run1.1
    ∧ ∃ op ∈ c4Run2.2, ¬ op_effect c4Run1.1 op = c4Run1.1 := by
  refine ⟨rfl, rfl, by decide, ?_⟩
  exact ⟨ModeOp.apply "D1" c4SyncSetting, by decide, by decide⟩

/-- C4 (amended): `activate_mode` IS idempotent for every Mode that is
well-formed in the sense of `mode_wf` — each device submap keys every
Setting under its own `channel_name` with unique keys, and no submap both
contains a `sync` entry and a lighting setting on another channel (the
latter clears the stored `sync` channel, the interaction
`c4_counterexample` exploits).  Under unique keys in the stored
device-settings and a duplicate-free device list, a second activation
leaves the persisted settings unchanged and every repository call it
issues is a no-op on the configuration. -/
theorem c4_activate_mode_idempotent (modes : List Mode)
    (active_modes devices : List String) (mode_uid : String)
    (st : DevSettings) (r1 r2 : DevSettings × List ModeOp)
    (hwf : ∀ m ∈ modes, mode_wf m)
    (hst : ∀ p ∈ st, (akeys (p.2 : Entry)).Nodup)
    (hdev : devices.Nodup)
    (h1 : activate_mode modes active_modes devices mode_uid st
      = Except.ok r1)
    (h2 : activate_mode modes active_modes devices mode_uid r1.1
      = Except.ok r2) :
    r2.1 = r1.1 ∧ ∀ op ∈ r2.2, op_effect r1.1 op = r1.1 := by
  simp only [activate_mode] at h1 h2
  cases hfind : modes.find? (fun m => m.uid = mode_uid) with
  | none =>
    rw [hfind] at h1
    exact Except.noConfusion h1
  | some mode =>
    simp only [hfind] at h1 h2
    have hm : mode ∈ modes := List.mem_of_find?_eq_some hfind
    by_cases hact : mode_uid ∈ active_modes
    · rw [if_pos hact] at h1 h2
      injection h1 with h1
      injection h2 with h2
      rw [← h2]
      exact ⟨rfl, fun op hop => absurd hop (List.not_mem_nil _)⟩
    · rw [if_neg hact] at h1 h2
      injection h1 with h1
      injection h2 with h2
      subst h1
      subst h2
      exact activate_run_idem mode devices st (hwf mode hm) hst hdev

/-- Closed witness for the amended C4 theorem at a concrete well-formed
fixed-speed Mode. -/
theorem c4_witness :
    (activate_mode_run c4wMode ["D1"]
      (activate_mode_run c4wMode ["D1"] []).1).1 =
      (activate_mode_run c4wMode ["D1"] []).1 :=
  (c4_activate_mode_idempotent [c4wMode] [] ["D1"] "m" []
    (activate_mode_run c4wMode ["D1"] [])
    (activate_mode_run c4wMode ["D1"]
      (activate_mode_run c4wMode ["D1"] []).1)
    (by
      intro m hm
      rw [List.mem_singleton] at hm
      subst hm
      unfold mode_wf
      decide)
    (by decide) (by decide) rfl rfl).1

/-! ### C7/C8: configuration loading -/

theorem to_u8_le (i : Int) (n : Nat) (h : to_u8 i = some n) : n ≤ 255 := by
  by_cases hc : 0 ≤ i ∧ i ≤ 255
  · unfold to_u8 at h
    rw [if_pos hc] at h
    injection h with h'
    omega
  · unfold to_u8 at h
    rw [if_neg hc] at h
    exact Option.noConfusion h

theorem parse_profile_pair_duty (pair : Toml) (pr : ℚ × Nat)
    (h : parse_profile_pair pair = .ok pr) : pr.2 ≤ 255 := by
  unfold parse_profile_pair at h
  repeat' split at h
  all_goals try exact Except.noConfusion h
  injection h with h'
  subst h'
  exact to_u8_le _ _ (by assumption)

theorem parse_profile_pairs_duty (pairs : List Toml) (l : List (ℚ × Nat))
    (h : parse_profile_pairs pairs = .ok l) : ∀ pr ∈ l, pr.2 ≤ 255 := by
  induction pairs generalizing l with
  | nil =>
    unfold parse_profile_pairs at h
    injection h with h'
    subst h'
    intro pr hpr
    cases hpr
  | cons pair rest ih =>
    unfold parse_profile_pairs at h
    split at h
    · exact Except.noConfusion h
    · split at h
      · exact Except.noConfusion h
      · injection h with h'
        subst h'
        intro pr hpr
        rcases List.mem_cons.mp hpr with rfl | hmem
        · exact parse_profile_pair_duty _ _ (by assumption)
        · exact ih _ (by assumption) pr hmem

theorem get_speed_profile_duty (t : List (String × Toml))
    (sp : List (ℚ × Nat)) (h : get_speed_profile t = .ok (some sp)) :
    ∀ pr ∈ sp, pr.2 ≤ 255 := by
  unfold get_speed_profile at h
  repeat' split at h
  all_goals try exact Except.noConfusion h
  · injection h with h'
    exact absurd h' (by simp)
  · injection h with h'
    injection h' with h''
    subst h''
    exact parse_profile_pairs_duty _ _ (by assumption)

theorem parse_profile_table_duty (t : List (String × Toml)) (p : Profile)
    (h : parse_profile_table t = .ok p) :
    ∀ sp, p.speed_profile = some sp → ∀ pr ∈ sp, pr.2 ≤ 255 := by
  unfold parse_profile_table at h
  repeat' split at h
  all_goals try exact Except.noConfusion h
  injection h with h'
  subst h'
  intro sp hsp
  rw [show (∀ pr ∈ sp, pr.2 ≤ 255) =
    (∀ pr ∈ sp, pr.2 ≤ 255) from rfl]
  have hsp' := hsp
  simp only at hsp'
  subst hsp'
  exact get_speed_profile_duty _ _ (by assumption)

theorem parse_profile_tables_duty (tables : List (List (String × Toml)))
    (ps : List Profile) (h : parse_profile_tables tables = .ok ps) :
    ∀ p ∈ ps, ∀ sp, p.speed_profile = some sp → ∀ pr ∈ sp, pr.2 ≤ 255 := by
  induction tables generalizing ps with
  | nil =>
    unfold parse_profile_tables at h
    injection h with h'
    subst h'
    intro p hp
    cases hp
  | cons t rest ih =>
    unfold parse_profile_tables at h
    split at h
    · exact Except.noConfusion h
    · split at h
      · exact Except.noConfusion h
      · injection h with h'
        subst h'
        intro p hp
        rcases List.mem_cons.mp hp with rfl | hmem
        · exact parse_profile_table_duty _ _ (by assumption)
        · exact ih _ (by assumption) p hmem

theorem get_profiles_duty (doc : Document) (ps : List Profile)
    (h : get_profiles doc = .ok ps) :
    ∀ p ∈ ps, ∀ sp, p.speed_profile = some sp → ∀ pr ∈ sp, pr.2 ≤ 255 := by
  unfold get_profiles at h
  split at h
  · injection h with h'
    subst h'
    intro p hp sp hsp
    rcases List.mem_cons.mp hp with rfl | hmem
    · exact absurd hsp (by simp [Profile.default])
    · cases hmem
  · split at h
    · exact Except.noConfusion h
    · exact parse_profile_tables_duty _ _ h

/-- C7 counterexample: a parsed configuration containing a `Graph` profile
whose `speed_profile` is out of order and carries a duty of 200 passes
every check of `load_config_file` — loading does NOT reject files that
violate the §3 Graph invariants. -/
theorem c7_counterexample :
    load_checks c7Doc = Except.ok ()
    ∧ get_profiles c7Doc = Except.ok [c7BadProfile]
    ∧ c7BadProfile.p_type = ProfileType.Graph
    ∧ c7BadProfile.speed_profile = some [(40, 50), (20, 200)]
    ∧ (∃ pr ∈ [((40 : ℚ), 50), ((20 : ℚ), 200)], 100 < pr.2)
    ∧ ¬ List.Sorted (fun a b : ℚ × Nat => a.1 < b.1)
        [((40 : ℚ), 50), ((20 : ℚ), 200)] := by
  refine ⟨by rfl, by rfl, rfl, rfl, ⟨((20 : ℚ), 200), by decide, by decide⟩, ?_⟩
  intro hsorted
  have := List.rel_of_sorted_cons hsorted ((20 : ℚ), 200)
    (List.mem_singleton.mpr rfl)
  have h40 : ¬ ((40 : ℚ) < 20) := by norm_num
  exact h40 this

/-- C7 (amended): loading rejects, as a fatal startup error, exactly the
files whose parsed content fails the type-level reads (wrong TOML value
kinds, integers outside the `u8`/`u16` conversions); in particular every
duty of every parsed `speed_profile` lies in `0..=255`.  It does NOT
enforce the §3 Graph-profile invariants: presence of `speed_profile`,
non-emptiness, strict ascending order, duties ≤ 100, and length 2..=17 are
all unchecked (see the counterexample). -/
theorem c7_load_checks_type_level (doc : Document)
    (hok : (load_checks doc).isOk = true) :
    ∃ ps, get_profiles doc = Except.ok ps
      ∧ ∀ p ∈ ps, ∀ sp, p.speed_profile = some sp →
          ∀ pr ∈ sp, pr.2 ≤ 255 := by
  unfold load_checks at hok
  repeat' split at hok
  all_goals simp [Except.isOk, Except.toBool] at hok
  have hprof : ∃ ps, get_profiles doc = Except.ok ps := ⟨_, by assumption⟩
  obtain ⟨ps, hps⟩ := hprof
  exact ⟨ps, hps, get_profiles_duty doc ps hps⟩

/-- C7 witness: the amended theorem applied to the counterexample
document. -/
theorem c7_witness :
    ∃ ps, get_profiles c7Doc = Except.ok ps
      ∧ ∀ p ∈ ps, ∀ sp, p.speed_profile = some sp →
          ∀ pr ∈ sp, pr.2 ≤ 255 :=
  c7_load_checks_type_level c7Doc (by rfl)

theorem read_bool_absent (tbl : List (String × Toml)) (key : String)
    (dflt : Bool) (err : String) (h : alookup tbl key = none) :
    read_bool tbl key dflt err = .ok dflt := by
  simp [read_bool, h, Toml.as_bool]

theorem read_clamped_int_absent (tbl : List (String × Toml)) (key : String)
    (dflt lo hi : Int) (err : String) (h : alookup tbl key = none) :
    read_clamped_int tbl key dflt lo hi err = .ok (min (max dflt lo) hi) := by
  simp [read_clamped_int, h, Toml.as_integer]

theorem read_clamped_int_int (tbl : List (String × Toml)) (key : String)
    (dflt lo hi : Int) (err : String) (i : Int)
    (h : alookup tbl key = some (.int i)) :
    read_clamped_int tbl key dflt lo hi err = .ok (min (max i lo) hi) := by
  simp [read_clamped_int, h, Toml.as_integer]

/-- C8: `get_settings` supplies the spec defaults for every key absent
from the `settings` table (`apply_on_boot=true`, `no_init=false`,
`handle_dynamic_temps=false`, `startup_delay=2`s, `smoothing_level=0`,
`thinkpad_full_speed=false`), and clamps every supplied integer:
`startup_delay` to `0..=10` seconds and `smoothing_level` to `0..=5`
(`.max(0).min(n)` on the raw `i64`). -/
theorem c8_get_settings_defaults_and_clamps (doc : Document)
    (tbl : List (String × Toml)) (result : CoolerControlSettings)
    (hset : alookup doc "settings" = some (.table tbl))
    (hok : get_settings doc = Except.ok result) :
    (alookup tbl "apply_on_boot" = none → result.apply_on_boot = true)
    ∧ (alookup tbl "no_init" = none → result.no_init = false)
    ∧ (alookup tbl "handle_dynamic_temps" = none →
        result.handle_dynamic_temps = false)
    ∧ (alookup tbl "startup_delay" = none → result.startup_delay = 2)
    ∧ (alookup tbl "smoothing_level" = none → result.smoothing_level = 0)
    ∧ (alookup tbl "thinkpad_full_speed" = none →
        result.thinkpad_full_speed = false)
    ∧ (∀ i, alookup tbl "startup_delay" = some (.int i) →
        result.startup_delay = (min (max i 0) 10).toNat
          ∧ result.startup_delay ≤ 10)
    ∧ (∀ i, alookup tbl "smoothing_level" = some (.int i) →
        result.smoothing_level = (min (max i 0) 5).toNat
          ∧ result.smoothing_level ≤ 5) := by
  unfold get_settings at hok
  rw [hset] at hok
  simp only [Toml.as_table] at hok
  cases h1 : read_bool tbl "apply_on_boot" true
      "apply_on_boot should be a boolean value" with
  | error e => simp [h1] at hok
  | ok b1 =>
  cases h2 : read_bool tbl "no_init" false
      "no_init should be a boolean value" with
  | error e => simp [h1, h2] at hok
  | ok b2 =>
  cases h3 : read_bool tbl "handle_dynamic_temps" false
      "handle_dynamic_temps should be a boolean value" with
  | error e => simp [h1, h2, h3] at hok
  | ok b3 =>
  cases h4 : read_clamped_int tbl "startup_delay" 2 0 10
      "startup_delay should be an integer value" with
  | error e => simp [h1, h2, h3, h4] at hok
  | ok i1 =>
  cases h5 : read_clamped_int tbl "smoothing_level" 0 0 5
      "smoothing_level should be an integer value" with
  | error e => simp [h1, h2, h3, h4, h5] at hok
  | ok i2 =>
  cases h6 : read_bool tbl "thinkpad_full_speed" false
      "thinkpad_full_speed should be a boolean value" with
  | error e => simp [h1, h2, h3, h4, h5, h6] at hok
  | ok b4 =>
  simp only [h1, h2, h3, h4, h5, h6] at hok
  injection hok with hrec
  subst hrec
  refine ⟨?_, ?_, ?_, ?_, ?_, ?_, ?_, ?_⟩
  · intro habs
    rw [read_bool_absent tbl "apply_on_boot" true _ habs] at h1
    injection h1 with h
    exact h.symm
  · intro habs
    rw [read_bool_absent tbl "no_init" false _ habs] at h2
    injection h2 with h
    exact h.symm
  · intro habs
    rw [read_bool_absent tbl "handle_dynamic_temps" false _ habs] at h3
    injection h3 with h
    exact h.symm
  · intro habs
    rw [read_clamped_int_absent tbl "startup_delay" 2 0 10 _ habs] at h4
    injection h4 with h
    rw [← h]
    show ((2 ⊔ 0) ⊓ 10 : Int).toNat = 2
    decide
  · intro habs
    rw [read_clamped_int_absent tbl "smoothing_level" 0 0 5 _ habs] at h5
    injection h5 with h
    rw [← h]
    show ((0 ⊔ 0) ⊓ 5 : Int).toNat = 0
    decide
  · intro habs
    rw [read_bool_absent tbl "thinkpad_full_speed" false _ habs] at h6
    injection h6 with h
    exact h.symm
  · intro i hi
    rw [read_clamped_int_int tbl "startup_delay" 2 0 10 _ i hi] at h4
    injection h4 with h
    constructor
    · rw [← h]
    · show i1.toNat ≤ 10
      omega
  · intro i hi
    rw [read_clamped_int_int tbl "smoothing_level" 0 0 5 _ i hi] at h5
    injection h5 with h
    constructor
    · rw [← h]
    · show i2.toNat ≤ 5
      omega

/-- C8 witness: a settings table supplying only `startup_delay = 60`
(clamped to 10) and leaving every other key absent, via the theorem. -/
theorem c8_witness :
    ((alookup [("startup_delay", Toml.int 60)] "apply_on_boot" = none →
        (CoolerControlSettings.mk true false false 10 0 false).apply_on_boot
          = true)
      ∧ (alookup [("startup_delay", Toml.int 60)] "no_init" = none →
        (CoolerControlSettings.mk true false false 10 0 false).no_init
          = false)
      ∧ (alookup [("startup_delay", Toml.int 60)] "handle_dynamic_temps"
          = none →
        (CoolerControlSettings.mk true false false 10 0
          false).handle_dynamic_temps = false)
      ∧ (alookup [("startup_delay", Toml.int 60)] "startup_delay" = none →
        (CoolerControlSettings.mk true false false 10 0 false).startup_delay
          = 2)
      ∧ (alookup [("startup_delay", Toml.int 60)] "smoothing_level" = none →
        (CoolerControlSettings.mk true false false 10 0
          false).smoothing_level = 0)
      ∧ (alookup [("startup_delay", Toml.int 60)] "thinkpad_full_speed"
          = none →
        (CoolerControlSettings.mk true false false 10 0
          false).thinkpad_full_speed = false)
      ∧ (∀ i, alookup [("startup_delay", Toml.int 60)] "startup_delay"
          = some (.int i) →
        (CoolerControlSettings.mk true false false 10 0 false).startup_delay
            = (min (max i 0) 10).toNat
          ∧ (CoolerControlSettings.mk true false false 10 0
              false).startup_delay ≤ 10)
      ∧ (∀ i, alookup [("startup_delay", Toml.int 60)] "smoothing_level"
          = some (.int i) →
        (CoolerControlSettings.mk true false false 10 0
            false).smoothing_level = (min (max i 0) 5).toNat
          ∧ (CoolerControlSettings.mk true false false 10 0
              false).smoothing_level ≤ 5)) :=
  c8_get_settings_defaults_and_clamps
    [("settings", Toml.table [("startup_delay", Toml.int 60)])]
    [("startup_delay", Toml.int 60)]
    (CoolerControlSettings.mk true false false 10 0 false)
    (by rfl) (by rfl)

/-! ### Alert evaluation lemmas -/

theorem activate_alert_state (a : Alert) (m : AlertMessage) :
    (activate_alert a m).1.state = AlertState.Active
    ∧ ((activate_alert a m).2.isSome ↔ a.state ≠ AlertState.Active) := by
  unfold activate_alert
  cases h : a.state <;> simp [h]

theorem threshold_check_spec (a : Alert) (v : ℚ) :
    ((threshold_check a v).2.isSome ↔ (threshold_check a v).1.state ≠ a.state)
    ∧ ((threshold_check a v).1.state = AlertState.Active ↔
        (v > a.max ∨ v < a.min))
    ∧ ((threshold_check a v).1.state = AlertState.Inactive ↔
        (a.min ≤ v ∧ v ≤ a.max)) := by
  have hrange : (a.min ≤ v ∧ v ≤ a.max) ↔ ¬(v > a.max ∨ v < a.min) := by
    constructor
    · rintro ⟨h1, h2⟩ (h3 | h4)
      · exact absurd h3 (not_lt.mpr h2)
      · exact absurd h4 (not_lt.mpr h1)
    · intro h
      push_neg at h
      exact ⟨h.2, h.1⟩
  unfold threshold_check activate_alert deactivate_alert
  by_cases h1 : v > a.max
  · have hnr : ¬(a.min ≤ v ∧ v ≤ a.max) := fun hr => (hrange.mp hr) (Or.inl h1)
    cases hs : a.state <;> simp [h1, hs, hnr]
  · by_cases h2 : v < a.min
    · have hnr : ¬(a.min ≤ v ∧ v ≤ a.max) :=
        fun hr => (hrange.mp hr) (Or.inr h2)
      cases hs : a.state <;> simp [h1, h2, hs, hnr]
    · have hr : a.min ≤ v ∧ v ≤ a.max := ⟨not_lt.mp h2, not_lt.mp h1⟩
      cases hs : a.state <;> simp [h1, h2, hs, hr]

theorem activate_alert_spec (a : Alert) (m : AlertMessage) :
    ((activate_alert a m).2.isSome ↔ (activate_alert a m).1.state ≠ a.state)
    ∧ (activate_alert a m).1.state = AlertState.Active := by
  unfold activate_alert
  cases hs : a.state <;> simp [hs]

theorem eval_alert_isOk (registry : DeviceRegistry) (a : Alert) :
    (eval_alert registry a).isOk = true ↔
      ∀ d, alookup registry a.channel_source.device_uid = some d →
        d.status_current.isSome = true := by
  cases hdev : alookup registry a.channel_source.device_uid with
  | none => simp [eval_alert, hdev, Except.isOk, Except.toBool]
  | some device =>
    cases hst : device.status_current with
    | none => simp [eval_alert, hdev, hst, Except.isOk, Except.toBool]
    | some status =>
      cases hv : get_channel_value status a.channel_source <;>
        simp [eval_alert, hdev, hst, hv, Except.isOk, Except.toBool]

/-! ### C2: alert evaluation is edge-triggered -/

/-- C2: for every alert evaluated without panicking, the evaluation fires a
log/broadcast entry exactly when the alert's state changes (edge-trigger);
when a metric value is extracted, the new state is `Active` exactly when the
value is strictly above `max` or strictly below `min`, and `Inactive`
exactly when it lies within `[min, max]`; and a missing device, channel or
metric always leaves the alert `Active`.  Consequently a constant input
fires at most once per state change. -/
theorem c2_alert_evaluation_edge_triggered (registry : DeviceRegistry)
    (a : Alert) (out : Alert × Option AlertMessage)
    (hok : eval_alert registry a = Except.ok out) :
    (out.2.isSome ↔ out.1.state ≠ a.state)
    ∧ (∀ device status v,
        alookup registry a.channel_source.device_uid = some device →
        device.status_current = some status →
        get_channel_value status a.channel_source = MetricResult.value v →
        ((out.1.state = AlertState.Active ↔ (v > a.max ∨ v < a.min))
          ∧ (out.1.state = AlertState.Inactive ↔ (a.min ≤ v ∧ v ≤ a.max))))
    ∧ ((alookup registry a.channel_source.device_uid = none
        ∨ ∃ device status m,
            alookup registry a.channel_source.device_uid = some device
            ∧ device.status_current = some status
            ∧ get_channel_value status a.channel_source =
                MetricResult.notFound m) →
        out.1.state = AlertState.Active) := by
  cases hdev : alookup registry a.channel_source.device_uid with
  | none =>
    have hout : out = activate_alert a AlertMessage.deviceNotFound := by
      simp [eval_alert, hdev] at hok
      exact hok.symm
    subst hout
    have h := activate_alert_spec a AlertMessage.deviceNotFound
    refine ⟨h.1, ?_, fun _ => h.2⟩
    intro device status v hdev' _ _
    simp [hdev] at hdev'
  | some device =>
    cases hst : device.status_current with
    | none => simp [eval_alert, hdev, hst] at hok
    | some status =>
      cases hv : get_channel_value status a.channel_source with
      | notFound m =>
        have hout : out = activate_alert a m := by
          simp [eval_alert, hdev, hst, hv] at hok
          exact hok.symm
        subst hout
        have h := activate_alert_spec a m
        refine ⟨h.1, ?_, fun _ => h.2⟩
        intro device' status' v hdev' hst' hv'
        obtain rfl : device = device' := Option.some.inj hdev'
        obtain rfl : status = status' := Option.some.inj (hst.symm.trans hst')
        exact absurd (hv.symm.trans hv') (by simp)
      | skip =>
        have hout : out = (a, none) := by
          simp [eval_alert, hdev, hst, hv] at hok
          exact hok.symm
        subst hout
        refine ⟨by simp, ?_, ?_⟩
        · intro device' status' v hdev' hst' hv'
          obtain rfl : device = device' :=
            Option.some.inj hdev'
          obtain rfl : status = status' :=
            Option.some.inj (hst.symm.trans hst')
          exact absurd (hv.symm.trans hv') (by simp)
        · rintro (hnone | ⟨device', status', m, hdev', hst', hv'⟩)
          · exact absurd hnone (by simp)
          · obtain rfl : device = device' :=
              Option.some.inj hdev'
            obtain rfl : status = status' :=
              Option.some.inj (hst.symm.trans hst')
            exact absurd (hv.symm.trans hv') (by simp)
      | value v =>
        have hout : out = threshold_check a v := by
          simp [eval_alert, hdev, hst, hv] at hok
          exact hok.symm
        subst hout
        have h := threshold_check_spec a v
        refine ⟨h.1, ?_, ?_⟩
        · intro device' status' v' hdev' hst' hv'
          obtain rfl : device = device' :=
            Option.some.inj hdev'
          obtain rfl : status = status' :=
            Option.some.inj (hst.symm.trans hst')
          obtain rfl : v = v' := by
            have hvv := hv.symm.trans hv'
            exact (MetricResult.value.injEq ..).mp hvv
          exact ⟨h.2.1, h.2.2⟩
        · rintro (hnone | ⟨device', status', m, hdev', hst', hv'⟩)
          · exact absurd hnone (by simp)
          · obtain rfl : device = device' :=
              Option.some.inj hdev'
            obtain rfl : status = status' :=
              Option.some.inj (hst.symm.trans hst')
            exact absurd (hv.symm.trans hv') (by simp)

/-- C2 witness: evaluating `c2Alert` (Inactive, max 70) against a registry
reporting 75 fires an activation, via the theorem at that concrete input. -/
theorem c2_witness :
    (c2Out.2.isSome ↔ c2Out.1.state ≠ c2Alert.state)
    ∧ (∀ device status v,
        alookup c2Registry c2Alert.channel_source.device_uid = some device →
        device.status_current = some status →
        get_channel_value status c2Alert.channel_source =
          MetricResult.value v →
        ((c2Out.1.state = AlertState.Active ↔
            (v > c2Alert.max ∨ v < c2Alert.min))
          ∧ (c2Out.1.state = AlertState.Inactive ↔
            (c2Alert.min ≤ v ∧ v ≤ c2Alert.max))))
    ∧ ((alookup c2Registry c2Alert.channel_source.device_uid = none
        ∨ ∃ device status m,
            alookup c2Registry c2Alert.channel_source.device_uid = some device
            ∧ device.status_current = some status
            ∧ get_channel_value status c2Alert.channel_source =
                MetricResult.notFound m) →
        c2Out.1.state = AlertState.Active) :=
  c2_alert_evaluation_edge_triggered c2Registry c2Alert c2Out (by
    show eval_alert c2Registry c2Alert = Except.ok c2Out
    simp only [eval_alert, c2Registry, c2Alert, c2Out, c2Status, alookup,
      get_channel_value, threshold_check, activate_alert]
    norm_num
    rfl)

/-! ### C10: alert processing totality -/

theorem process_isOk_cons (registry : DeviceRegistry) (head : Alert)
    (tail : List Alert) :
    (process_and_collect_alerts_to_fire registry (head :: tail)).isOk = true ↔
      ((eval_alert registry head).isOk = true ∧
        (process_and_collect_alerts_to_fire registry tail).isOk = true) := by
  cases he : eval_alert registry head with
  | error e =>
    cases e
    simp [process_and_collect_alerts_to_fire, he, Except.isOk, Except.toBool]
  | ok pr =>
    obtain ⟨a', fire?⟩ := pr
    cases hr : process_and_collect_alerts_to_fire registry tail with
    | error e =>
      cases e
      simp [process_and_collect_alerts_to_fire, he, hr, Except.isOk,
        Except.toBool]
    | ok res =>
      obtain ⟨rest', fires⟩ := res
      simp [process_and_collect_alerts_to_fire, he, hr, Except.isOk,
        Except.toBool]

/-- C10: processing the alert list is total (no panic from the
`status_current().unwrap()`) exactly when every alert whose
`channel_source.device_uid` names a device present in the registry finds
that device with at least one status snapshot; and an alert whose device is
missing from the registry is instead handled by the activation path with
the device-not-found message (no panic). -/
theorem c10_process_alerts_totality (registry : DeviceRegistry)
    (alerts : List Alert) :
    ((process_and_collect_alerts_to_fire registry alerts).isOk = true ↔
      ∀ a ∈ alerts, ∀ d,
        alookup registry a.channel_source.device_uid = some d →
        d.status_current.isSome = true)
    ∧ ∀ a : Alert, alookup registry a.channel_source.device_uid = none →
        eval_alert registry a =
          Except.ok (activate_alert a AlertMessage.deviceNotFound) := by
  constructor
  · induction alerts with
    | nil =>
      simp [process_and_collect_alerts_to_fire, Except.isOk, Except.toBool]
    | cons head tail ih =>
      rw [process_isOk_cons, eval_alert_isOk, ih]
      constructor
      · rintro ⟨h1, h2⟩ a ha
        rcases List.mem_cons.mp ha with rfl | hmem
        · exact h1
        · exact h2 a hmem
      · intro h
        exact ⟨h head (List.mem_cons_self ..),
          fun a ha => h a (List.mem_cons_of_mem _ ha)⟩
  · intro a h
    simp [eval_alert, h]

/-! ### C3: the alert log ring (code bug) -/

/-- C3: the alert log ring is claimed never to exceed 20 entries, the
oldest entry being dropped when a call would exceed the capacity.  The code
(`log_alert_state_change`, `alerts.rs` lines 412-416) pops the front only
when the length already EXCEEDS `LOG_BUFFER_SIZE = 20`: starting from a
buffer of exactly 20 entries, one more call keeps all 20 old entries and
pushes the new one, giving 21 entries — an off-by-one against the intended
capacity of 20 (`VecDeque::with_capacity(LOG_BUFFER_SIZE)`). -/
theorem c3_log_ring_reaches_21 :
    log_alert_state_change (List.replicate 20 exampleLogA) exampleLogB
      = List.replicate 20 exampleLogA ++ [exampleLogB]
    ∧ (log_alert_state_change (List.replicate 20 exampleLogA)
        exampleLogB).length = 21 := by
  constructor
  · rfl
  · rfl

/-! ### C6: `update_mode_order` (corrected) -/

/-- C6 counterexample: the claim says `update_mode_order` succeeds only when
the supplied list is a permutation of the stored order.  With stored order
`["a"]`, the input `["b"]` is not a permutation of it, yet the call succeeds
and installs `["b"]`: the code checks only the length. -/
theorem c6_counterexample :
    update_mode_order ["a"] ["b"] = Except.ok ["b"]
    ∧ ¬ List.Perm ["a"] ["b"] := by
  constructor
  · rfl
  · decide

/-- C6 (amended): `update_mode_order(uids)` succeeds exactly when the
supplied list has the same length as the stored order (no multiset check is
performed), in which case the stored order is replaced by the input; any
length mismatch fails with a `UserError` and, since the function returns
before mutating, leaves the stored order unchanged. -/
theorem c6_update_mode_order_length_check (order uids : List String) :
    (update_mode_order order uids = Except.ok uids ↔
      order.length = uids.length)
    ∧ (order.length ≠ uids.length →
      update_mode_order order uids =
        Except.error "Mode order list length doesn't match the number of modes") := by
  constructor
  · constructor
    · intro h
      by_contra hne
      simp [update_mode_order, hne] at h
    · intro h
      simp [update_mode_order, h]
  · intro h
    simp [update_mode_order, h]

/-! ### C9: `AlertController::update` preserves the stored state -/

/-- C9: `update` never changes an alert's stored `state`: when the uid
exists, the stored alert afterwards equals the supplied alert with its
`state` replaced by the previously stored state (so `name`,
`channel_source`, `min` and `max` take the supplied values), and all other
uids map to unchanged alerts; when the uid does not exist, `update` fails
with `NotFound` (returning before any mutation, so the stored alerts are
unchanged). -/
theorem c9_alert_update_preserves_state (alerts : List (String × Alert))
    (alert : Alert) :
    (alookup alerts alert.uid = none →
      alert_update alerts alert = Except.error "NotFound")
    ∧ (∀ current, alookup alerts alert.uid = some current →
      ∃ alerts', alert_update alerts alert = Except.ok alerts'
        ∧ alookup alerts' alert.uid = some { alert with state := current.state }
        ∧ ∀ k, k ≠ alert.uid → alookup alerts' k = alookup alerts k) := by
  constructor
  · intro h
    simp [alert_update, h]
  · intro current h
    refine ⟨astore alerts alert.uid { alert with state := current.state },
      ?_, ?_, ?_⟩
    · simp [alert_update, h]
    · exact alookup_astore_self ..
    · intro k hk
      exact alookup_astore_ne _ _ _ _ hk

/-- C9 witness: a concrete update on a one-alert store, via the theorem's
found branch: the state is preserved and the other fields are updated. -/
theorem c9_witness :
    ∃ alerts',
      alert_update [("u1", c9StoredAlert)] c9SuppliedAlert = Except.ok alerts'
      ∧ alookup alerts' c9SuppliedAlert.uid
        = some { c9SuppliedAlert with state := c9StoredAlert.state }
      ∧ ∀ k, k ≠ c9SuppliedAlert.uid →
          alookup alerts' k = alookup [("u1", c9StoredAlert)] k :=
  (c9_alert_update_preserves_state [("u1", c9StoredAlert)] c9SuppliedAlert).2
    c9StoredAlert (by rfl)

end CoolerControl
